import Mathlib

/-!
# Verification of the DocuAgent confidence-scoring and validation engine

Shallow embedding of `src/utils/confidence_scoring.py` (class
`ConfidenceScorer`) and `src/utils/validation.py` (class
`DocumentValidator`).

Modelling conventions:

* Python floats are modelled as rationals (`ℚ`).  Every float literal in the
  source is dyadic, so this is exact for the arithmetic the claims are about.
* Field values are the inductive `Value` (string, number or `None`), with
  Python truthiness made explicit by `truthy`.
* Python exceptions are modelled with `Except String`: a function that can
  raise returns `.error msg`; code points where the source catches an
  exception pattern-match on the `Except` value.
* `str(float)` rendering (`pyStrNum`) produces the plain decimal expansion of
  a dyadic rational; Python scientific notation for very large or very small
  magnitudes is not modelled — no claim depends on it.  Likewise Python
  message strings that interpolate floats are rendered through `pyStrNum`.
* `datetime.now()` is modelled by an integer day number `now` threaded as a
  parameter; the sub-day fraction of a `datetime` subtraction is below the
  granularity of the claims.
* `np.mean`/`np.std` are external numpy primitives; the mean is computed
  exactly in `ℚ`, while the standard deviation (an irrational square root)
  is supplied as an explicit function parameter `stdFn` to the functions
  that use it, exactly at the call site `np.std(...) if len(...) > 1 else 0`.
-/

namespace DocuAgent

/-- Python whitespace for `str.strip` / `str.split` (`\x20 \t \n \r \x0b \x0c`). -/
def pyIsSpace (c : Char) : Bool :=
  c = ' ' || c = '\t' || c = '\n' || c = '\r' || c = '\x0B' || c = '\x0C'

/-- `str.strip()` with no argument: remove leading and trailing whitespace. -/
def pyStrip (s : String) : String :=
  String.mk (((s.data.dropWhile pyIsSpace).reverse.dropWhile pyIsSpace).reverse)

/-- ASCII lowercasing of one character. -/
def pyCharLower (c : Char) : Char :=
  if 'A' ≤ c && c ≤ 'Z' then Char.ofNat (c.toNat + 32) else c

/-- ASCII lowercasing, matching `str.lower()` on the ASCII text the repo handles. -/
def pyLower (s : String) : String := String.mk (s.data.map pyCharLower)

/-- Helper for `listIsInfix`: does `n` occur as a contiguous block of `h`? -/
def listIsInfix (n : List Char) : List Char → Bool
  | [] => n.isEmpty
  | c :: t => n.isPrefixOf (c :: t) || listIsInfix n t

/-- The Python `in` operator on strings: substring containment. -/
def pyIn (needle hay : String) : Bool := listIsInfix needle.data hay.data

/-- `str.split()` (no argument): split on whitespace runs, dropping empties.
`acc` holds the current word reversed. -/
def pyWordsAux : List Char → List Char → List String
  | [], acc => if acc.isEmpty then [] else [String.mk acc.reverse]
  | c :: t, acc =>
    if pyIsSpace c then
      if acc.isEmpty then pyWordsAux t [] else String.mk acc.reverse :: pyWordsAux t []
    else pyWordsAux t (c :: acc)

/-- `str.split()` on a string. -/
def pyWords (s : String) : List String := pyWordsAux s.data []

/-- Does the list contain a run of at least `k` consecutive characters
satisfying `p`?  (`run` counts the chars of the current run already seen.)
Models `re.search` for character-class repetition patterns such as
`[|]{2,}`. -/
def hasRunAux (p : Char → Bool) (k : Nat) : List Char → Nat → Bool
  | [], _ => false
  | c :: t, run =>
    if p c then (if k ≤ run + 1 then true else hasRunAux p k t (run + 1))
    else hasRunAux p k t 0

/-- `re.search('[X]{k,}', s)` as a Boolean on the character list. -/
def hasRun (p : Char → Bool) (k : Nat) (cs : List Char) : Bool :=
  if k = 0 then true else hasRunAux p k cs 0

/-- Does a match of `\d+[A-Za-z]+\d+` start at the head of the list? -/
def startsDLD (cs : List Char) : Bool :=
  match cs with
  | [] => false
  | c :: _ =>
    if c.isDigit then
      match cs.dropWhile Char.isDigit with
      | [] => false
      | c2 :: _ =>
        if c2.isAlpha then
          match (cs.dropWhile Char.isDigit).dropWhile Char.isAlpha with
          | [] => false
          | c3 :: _ => c3.isDigit
        else false
    else false

/-- `re.search('\\d+[A-Za-z]+\\d+', s)`: some suffix starts a match. -/
def containsDLD : List Char → Bool
  | [] => false
  | c :: t => startsDLD (c :: t) || containsDLD t

/-- Digits of a decimal numeral to a natural number. -/
def digitsToNat (cs : List Char) : Nat :=
  cs.foldl (fun a c => a * 10 + (c.toNat - 48)) 0

/-- Decimal string of `n` left-padded with zeros to width `k`. -/
def natPad (n k : Nat) : String :=
  let s := toString n
  String.mk (List.replicate (k - s.length) '0') ++ s

/-- Smallest `k ≤ 60` with `den ∣ 10 ^ k`, if any. -/
def tenExp (den : Nat) : Option Nat :=
  (List.range 61).find? (fun k => 10 ^ k % den = 0)

/-- `str(value)` for a Python float modelled as a rational.  Exact for dyadic
rationals (every float is dyadic): renders the finite decimal expansion,
with `".0"` appended for integral values just as Python does.  Scientific
notation (used by Python only for very large/small magnitudes) is not
modelled; non-dyadic rationals, which do not arise as float values, fall
back to a fraction rendering. -/
def pyStrNum (q : ℚ) : String :=
  let sign := if q < 0 then "-" else ""
  let n := q.num.natAbs
  match tenExp q.den with
  | some 0 => sign ++ toString n ++ ".0"
  | some k =>
    let scaled := n * (10 ^ k / q.den)
    sign ++ toString (scaled / 10 ^ k) ++ "." ++ natPad (scaled % 10 ^ k) k
  | none => sign ++ toString n ++ "/" ++ toString q.den

/-- Parse the exponent part of a float literal (after `e`/`E`). -/
def pyFloatParseExp (mant : ℚ) (cs : List Char) : Option ℚ :=
  let (neg, cs) := match cs with
    | '+' :: t => (false, t)
    | '-' :: t => (true, t)
    | t => (false, t)
  let ds := cs.takeWhile Char.isDigit
  let rest := cs.dropWhile Char.isDigit
  if ds.isEmpty || ¬ rest.isEmpty then none
  else
    let e := digitsToNat ds
    some (if neg then mant / 10 ^ e else mant * 10 ^ e)

/-- `float(s)` on a string: strip whitespace, optional sign, decimal mantissa,
optional exponent.  `inf`/`nan` and digit underscores, which never occur in
this pipeline, are not modelled (they parse as failure here). -/
def pyFloatParse (s : String) : Option ℚ :=
  let cs := (pyStrip s).data
  let (neg, cs) := match cs with
    | '+' :: t => (false, t)
    | '-' :: t => (true, t)
    | t => (false, t)
  let ip := cs.takeWhile Char.isDigit
  let r1 := cs.dropWhile Char.isDigit
  let (fp, r2) := match r1 with
    | '.' :: t => (t.takeWhile Char.isDigit, t.dropWhile Char.isDigit)
    | t => ([], t)
  if ip.isEmpty && fp.isEmpty then none
  else
    let mant : ℚ := (digitsToNat ip : ℚ) + (digitsToNat fp : ℚ) / 10 ^ fp.length
    let mant := if neg then -mant else mant
    match r2 with
    | [] => some mant
    | 'e' :: t => pyFloatParseExp mant t
    | 'E' :: t => pyFloatParseExp mant t
    | _ => none

/-! ## The data model: field records and Python dictionaries -/

/-- A scalar field value as produced by the JSON extractor: a string, a
number, or `None` (JSON `null`). -/
inductive Value where
  | vnone
  | vstr (s : String)
  | vnum (q : ℚ)
  deriving DecidableEq, Repr

/-- Python truthiness of a `Value` (`bool(v)`). -/
def truthy : Value → Bool
  | .vnone => false
  | .vstr s => ¬ s.data.isEmpty
  | .vnum q => q ≠ 0

/-- `str(value)` on a `Value`. -/
def pyStrOfValue : Value → String
  | .vnone => "None"
  | .vstr s => s
  | .vnum q => pyStrNum q

/-- One extracted field record.  `confidence := none` models a record with no
`confidence` key at all; the `source` and `confidence_breakdown` entries are
purely diagnostic and not modelled. -/
structure Field where
  name : String
  value : Value
  confidence : Option ℚ := none
  deriving DecidableEq, Repr

/-- Python `dict.__setitem__`: replace the value of an existing key in place,
otherwise append the new binding.  Dictionaries built with this operation
have unique keys, exactly like Python dictionaries. -/
def dictSet : List (String × Value) → String → Value → List (String × Value)
  | [], k, v => [(k, v)]
  | (k', v') :: t, k, v =>
    if k' = k then (k, v) :: t else (k', v') :: dictSet t k v

/-- Python `dict.get(k)`: the value stored at `k`, if any. -/
def dictGet (d : List (String × Value)) (k : String) : Option Value :=
  (d.find? (fun p => p.1 == k)).map (·.2)

/-- `{field['name']: field['value'] for field in fields}` — the dictionary
comprehension of `validate_extraction` (validation.py line 117).  Later
entries overwrite earlier ones. -/
def buildFieldDict (fields : List Field) : List (String × Value) :=
  fields.foldl (fun d f => dictSet d f.name f.value) []

/-- `{f['name']: f['value'] for f in all_fields if f['name'] != field_name}` —
the sibling dictionary of `score_cross_field_consistency`
(confidence_scoring.py lines 290-291). -/
def buildSiblingDict (excl : String) (fields : List Field) : List (String × Value) :=
  buildFieldDict (fields.filter (fun f => f.name ≠ excl))

/-! ## ConfidenceScorer: regex shape checkers

Each of the fixed regular expressions of `confidence_scoring.py` is modelled
as a Boolean on the character list.  `pyAnchoredMatch` adds the Python `$`
semantics (a match may stop just before one trailing newline). -/

/-- `re.match` of a `^...$`-anchored pattern: `$` also matches just before a
single trailing newline. -/
def pyAnchoredMatch (core : List Char → Bool) (s : String) : Bool :=
  core s.data ||
    (match s.data.getLast? with
     | some '\n' => core s.data.dropLast
     | _ => false)

/-- Core of `^\d{4}-\d{2}-\d{2}$`. -/
def matchDateYMD : List Char → Bool
  | [a, b, c, d, e, f, g, h, i, j] =>
    a.isDigit && b.isDigit && c.isDigit && d.isDigit && e = '-' &&
    f.isDigit && g.isDigit && h = '-' && i.isDigit && j.isDigit
  | _ => false

/-- Core of `^\d{1,2}<sep>\d{1,2}<sep>\d{4}$` (sep is `/` or `-`). -/
def matchShortDate (sep : Char) (cs : List Char) : Bool :=
  let a := cs.takeWhile Char.isDigit
  let r := cs.dropWhile Char.isDigit
  (1 ≤ a.length && a.length ≤ 2) &&
  match r with
  | c :: r2 =>
    c = sep &&
    (let b := r2.takeWhile Char.isDigit
     let r3 := r2.dropWhile Char.isDigit
     (1 ≤ b.length && b.length ≤ 2) &&
     match r3 with
     | c2 :: r4 =>
       c2 = sep &&
       (r4.takeWhile Char.isDigit).length = 4 &&
       (r4.dropWhile Char.isDigit).isEmpty
     | [] => false)
  | [] => false

/-- Core of `^\d+\.\d{2}$`. -/
def matchDecimal2 (cs : List Char) : Bool :=
  let a := cs.takeWhile Char.isDigit
  let r := cs.dropWhile Char.isDigit
  (1 ≤ a.length) &&
  match r with
  | '.' :: b :: c :: [] => b.isDigit && c.isDigit
  | _ => false

/-- After the leading `\d{1,3}` of the currency pattern: `(,\d{3})*(\.\d{2})?$`. -/
def matchCurrencyTail : List Char → Bool
  | [] => true
  | ',' :: t =>
    match t with
    | a :: b :: c :: r => a.isDigit && b.isDigit && c.isDigit && matchCurrencyTail r
    | _ => false
  | '.' :: t =>
    match t with
    | a :: b :: [] => a.isDigit && b.isDigit
    | _ => false
  | _ => false

/-- Core of `^\$?\d{1,3}(,\d{3})*(\.\d{2})?$`. -/
def matchCurrency (cs : List Char) : Bool :=
  let cs := match cs with
    | '$' :: t => t
    | t => t
  let a := cs.takeWhile Char.isDigit
  let r := cs.dropWhile Char.isDigit
  (1 ≤ a.length && a.length ≤ 3) && matchCurrencyTail r

/-- Core of `^\d+$`. -/
def matchAllDigits (cs : List Char) : Bool :=
  ¬ cs.isEmpty && cs.all Char.isDigit

/-- Core of `^\(\d{3}\) \d{3}-\d{4}$`. -/
def matchPhoneParen : List Char → Bool
  | ['(', a, b, c, ')', ' ', d, e, f, '-', g, h, i, j] =>
    a.isDigit && b.isDigit && c.isDigit && d.isDigit && e.isDigit &&
    f.isDigit && g.isDigit && h.isDigit && i.isDigit && j.isDigit
  | _ => false

/-- Core of `^\d{10}$`. -/
def matchPhone10 (cs : List Char) : Bool :=
  cs.length = 10 && cs.all Char.isDigit

/-- Core of `^\d{3}-\d{3}-\d{4}$`. -/
def matchPhoneDash : List Char → Bool
  | [a, b, c, '-', d, e, f, '-', g, h, i, j] =>
    a.isDigit && b.isDigit && c.isDigit && d.isDigit && e.isDigit &&
    f.isDigit && g.isDigit && h.isDigit && i.isDigit && j.isDigit
  | _ => false

/-- Character class `[a-zA-Z0-9._%+-]` of the email local part. -/
def emailLocalChar (c : Char) : Bool :=
  c.isAlphanum || c = '.' || c = '_' || c = '%' || c = '+' || c = '-'

/-- Character class `[a-zA-Z0-9.-]` of the email domain. -/
def emailDomainChar (c : Char) : Bool :=
  c.isAlphanum || c = '.' || c = '-'

/-- Core of `^[a-zA-Z0-9._%+-]+@[a-zA-Z0-9.-]+\.[a-zA-Z]{2,}$`: existence of a
split of the domain at the last-group dot. -/
def matchEmail (cs : List Char) : Bool :=
  let lp := cs.takeWhile emailLocalChar
  let r := cs.dropWhile emailLocalChar
  (1 ≤ lp.length) &&
  match r with
  | '@' :: rest =>
    (List.range rest.length).any (fun i =>
      let a := rest.take i
      1 ≤ a.length && a.all emailDomainChar &&
      match rest.drop i with
      | '.' :: tld => 2 ≤ tld.length && tld.all Char.isAlpha
      | _ => false)
  | _ => false

/-! ## ConfidenceScorer: the scoring weight tables -/

/-- `self.scoring_weights` of `ConfidenceScorer.__init__`. -/
structure ScoringWeights where
  text_clarity : ℚ
  context_strength : ℚ
  pattern_match : ℚ
  consistency : ℚ

/-- `{'text_clarity': 0.3, 'context_strength': 0.25, 'pattern_match': 0.25,
'consistency': 0.2}` -/
def scoring_weights : ScoringWeights :=
  { text_clarity := 3/10, context_strength := 1/4, pattern_match := 1/4,
    consistency := 1/5 }

/-- `self.pattern_confidence` of `ConfidenceScorer.__init__`. -/
structure PatternConfidence where
  date : ℚ
  amount : ℚ
  phone : ℚ
  email : ℚ
  zip_code : ℚ
  id_number : ℚ

/-- `{'date': 0.9, 'amount': 0.85, 'phone': 0.8, 'email': 0.9,
'zip_code': 0.85, 'id_number': 0.75}` -/
def pattern_confidence : PatternConfidence :=
  { date := 9/10, amount := 17/20, phone := 4/5, email := 9/10,
    zip_code := 17/20, id_number := 3/4 }

/-! ## ConfidenceScorer: component scores -/

/-- `fuzzy_text_match` (confidence_scoring.py lines 375-386): character
overlap ratio of the word characters of the value against the source text. -/
def fuzzy_text_match (field_value source_text : String) (threshold : ℚ := 4/5) : Bool :=
  if field_value.data.isEmpty || source_text.data.isEmpty then false
  else
    let field_clean := (pyLower field_value).data.filter
      (fun c => c.isAlphanum || c = '_')
    let source_clean := (pyLower source_text).data
    let matching := (field_clean.filter (fun c => source_clean.contains c)).length
    if field_clean.isEmpty then false
    else threshold ≤ (matching : ℚ) / (field_clean.length : ℚ)

/-- The string-value body of `score_text_clarity` (lines 133-167): OCR-noise
multipliers, length multipliers, digit-letter-digit check, presence in the
source text, capped at 1. -/
def clarityOfString (s source_text : String) : ℚ :=
  let c := (1 : ℚ)
  let c := if hasRun (fun x => x = '|') 2 s.data then c * (7/10) else c
  let c := if hasRun (fun x => x = '0' || x = 'O') 3 s.data then c * (7/10) else c
  let c := if hasRun (fun x => x = 'I' || x = 'l' || x = '1') 3 s.data then c * (7/10) else c
  let c := if hasRun (fun x => x = '@' || x = '#' || x = '$' || x = '%' || x = '^' || x = '&' || x = '*') 2 s.data then c * (7/10) else c
  let c := if hasRun pyIsSpace 3 s.data then c * (7/10) else c
  let value_length := (pyStrip s).length
  let c := if value_length < 2 then c * (1/2)
           else if 200 < value_length then c * (4/5) else c
  let c := if containsDLD s.data && ¬ pyIn "address" (pyLower s) then c * (4/5) else c
  let c := if pyIn (pyLower s) (pyLower source_text) then c * (6/5)
           else if fuzzy_text_match s source_text then c * (11/10)
           else c * (7/10)
  min 1 c

/-- `score_text_clarity` (lines 127-167).  A falsy value scores 0 before any
regex runs; for a (truthy) numeric value the very first
`re.search(pattern, field_value)` raises `TypeError`. -/
def score_text_clarity (field_value : Value) (source_text : String) : Except String ℚ :=
  if ¬ truthy field_value then .ok 0
  else match field_value with
  | .vstr s => .ok (clarityOfString s source_text)
  | .vnum _ => .error "TypeError: expected string or bytes-like object"
  | .vnone => .ok 0

/-- The `context_keywords` table of `score_context_strength` (lines 178-200). -/
def context_keywords : List (String × List (String × List String)) :=
  [("invoice",
    [("invoice_number", ["invoice", "inv", "#", "number"]),
     ("total_amount", ["total", "amount", "due", "$", "balance"]),
     ("vendor_name", ["from:", "vendor", "company", "bill to"]),
     ("invoice_date", ["date", "issued", "invoice date"]),
     ("due_date", ["due", "payment due", "due date"])]),
   ("medical_bill",
    [("patient_name", ["patient", "name", "member"]),
     ("provider_name", ["provider", "hospital", "clinic", "doctor"]),
     ("total_charges", ["total", "charges", "amount", "balance"]),
     ("service_date", ["service", "date", "visit date"]),
     ("insurance_company", ["insurance", "plan", "coverage"])]),
   ("prescription",
    [("patient_name", ["patient", "name"]),
     ("doctor_name", ["doctor", "physician", "prescriber", "md"]),
     ("pharmacy_name", ["pharmacy", "rx", "dispensed by"]),
     ("medications", ["medication", "drug", "rx", "prescribed"]),
     ("prescription_date", ["date", "prescribed", "rx date"])])]

/-- `context_keywords.get(doc_type, {}).get(field_name, [])`. -/
def contextKeywordsFor (doc_type field_name : String) : List String :=
  (((context_keywords.find? (fun p => p.1 == doc_type)).map (·.2)).getD []
    |>.find? (fun p => p.1 == field_name)).map (·.2) |>.getD []

/-- String-value core of `find_keyword_near_value` (lines 388-416): every
occurrence position of the value in the lowered source, with a symmetric
50-character window checked for the keyword. -/
def kwNearCore (keyword field_value source_text : String) (window : Nat := 50) : Bool :=
  let sl := (pyLower source_text).data
  let kl := (pyLower keyword).data
  let vl := (pyLower field_value).data
  let positions := (List.range (sl.length + 1)).filter
    (fun p => vl.isPrefixOf (sl.drop p))
  positions.any (fun p =>
    let ws := p - window
    let we := min sl.length (p + vl.length + window)
    listIsInfix kl ((sl.take we).drop ws))

/-- `find_keyword_near_value` (lines 388-416).  The `all([...])` guard makes
any falsy argument return `False` before `field_value.lower()` can raise for
a numeric value. -/
def find_keyword_near_value (keyword : String) (field_value : Value) (source_text : String) : Except String Bool :=
  if keyword.data.isEmpty || ¬ truthy field_value || source_text.data.isEmpty then .ok false
  else match field_value with
  | .vstr s => .ok (kwNearCore keyword s source_text)
  | .vnum _ => .error "AttributeError: float object has no attribute lower"
  | .vnone => .ok false

/-- `validate_field_context` (lines 418-443): the extra `+0.1` shape bonus.
For a numeric value the name branch raises at `field_value.split()`; the
amount and id branches use `str(field_value)` and stay total. -/
def validate_field_context (field_name : String) (field_value : Value) : Except String ℚ :=
  let nl := pyLower field_name
  if pyIn "name" nl && ¬ pyIn "file" nl then
    match field_value with
    | .vstr s =>
      let words := pyWords s
      .ok (if 1 ≤ words.length && words.length ≤ 5 &&
              words.all (fun w => (¬ w.data.isEmpty && w.data.all Char.isAlpha) || w.data.contains '-')
           then 1/10 else 0)
    | .vnum _ => .error "AttributeError: float object has no attribute split"
    | .vnone => .error "AttributeError: NoneType object has no attribute split"
  else if pyIn "amount" nl || pyIn "total" nl || pyIn "charge" nl || pyIn "paid" nl then
    let cleaned := String.mk ((pyStrOfValue field_value).data.filter
      (fun c => c.isDigit || c = '.'))
    .ok (match pyFloatParse cleaned with
         | some amount => if 1/100 ≤ amount && amount ≤ 1000000 then 1/10 else 0
         | none => 0)
  else if pyIn "id" nl || pyIn "number" nl then
    let s := pyStrOfValue field_value
    .ok (if 3 ≤ s.length && s.length ≤ 50 && s.data.any Char.isAlphanum then 1/10 else 0)
  else .ok 0

/-- `score_context_strength` (lines 169-213): base 0.6, `+0.1` per context
keyword found near the value, plus the field-shape bonus, capped at 1. -/
def score_context_strength (field_name : String) (field_value : Value) (source_text doc_type : String) : Except String ℚ :=
  if ¬ truthy field_value then .ok 0
  else
    let kws := contextKeywordsFor doc_type field_name
    match kws.foldlM (fun (acc : ℚ) kw =>
        match find_keyword_near_value kw field_value source_text with
        | .error e => (Except.error e : Except String ℚ)
        | .ok near => Except.ok (if near then acc + 1/10 else acc)) (3/5) with
    | .error e => .error e
    | .ok ctx =>
      match validate_field_context field_name field_value with
      | .error e => .error e
      | .ok bonus => .ok (min 1 (ctx + bonus))

/-- `score_pattern_match` (lines 215-277): field-name-driven dispatch to the
shape checkers.  The amount branch wraps the value in `str(...)`; the date,
phone, email, id and name branches use the raw value and raise `TypeError`
on a numeric value. -/
def score_pattern_match (field_name : String) (field_value : Value) : Except String ℚ :=
  if ¬ truthy field_value then .ok 0
  else
    let nl := pyLower field_name
    if pyIn "date" nl then
      match field_value with
      | .vstr s =>
        .ok (if pyAnchoredMatch matchDateYMD s || pyAnchoredMatch (matchShortDate '/') s ||
                pyAnchoredMatch (matchShortDate '-') s
             then pattern_confidence.date else 1/2)
      | _ => .error "TypeError: expected string or bytes-like object"
    else if pyIn "amount" nl || pyIn "total" nl || pyIn "subtotal" nl ||
            pyIn "tax" nl || pyIn "charge" nl || pyIn "paid" nl then
      let s := pyStrOfValue field_value
      .ok (if pyAnchoredMatch matchDecimal2 s || pyAnchoredMatch matchCurrency s ||
              pyAnchoredMatch matchAllDigits s
           then pattern_confidence.amount else 1/2)
    else if pyIn "phone" nl then
      match field_value with
      | .vstr s =>
        .ok (if pyAnchoredMatch matchPhoneParen s || pyAnchoredMatch matchPhone10 s ||
                pyAnchoredMatch matchPhoneDash s
             then pattern_confidence.phone else 1/2)
      | _ => .error "TypeError: expected string or bytes-like object"
    else if pyIn "email" nl then
      match field_value with
      | .vstr s =>
        .ok (if pyAnchoredMatch matchEmail s then pattern_confidence.email else 1/2)
      | _ => .error "TypeError: expected string or bytes-like object"
    else if pyIn "id" nl || pyIn "number" nl || pyIn "policy" nl || pyIn "member" nl then
      match field_value with
      | .vstr s =>
        .ok (if s.data.any Char.isDigit &&
                (let ns := s.data.filter (fun c => c ≠ ' ')
                 ¬ ns.isEmpty && ns.all Char.isAlphanum)
             then pattern_confidence.id_number else 1/2)
      | _ => .error "TypeError: expected string or bytes-like object"
    else if pyIn "name" nl && ¬ pyIn "file" nl then
      match field_value with
      | .vstr s =>
        .ok (if ¬ s.data.any Char.isDigit &&
                (s.data.filter (fun c => ¬ (c.isAlpha || pyIsSpace c || c = '-' || c = '.'))).length < 3
             then 4/5 else 1/2)
      | _ => .error "TypeError: expected string or bytes-like object"
    else .ok (1/2)

/-- `safe_float_convert` (lines 445-454): `None` maps to `None`, otherwise the
currency characters `$ , € £ ¥` are stripped from `str(value)` and the rest
must parse as a float.  The argument is the (possibly absent) result of a
`dict.get`. -/
def safe_float_convert (value : Option Value) : Option ℚ :=
  match value with
  | none => none
  | some .vnone => none
  | some v =>
    let clean := String.mk ((pyStrOfValue v).data.filter
      (fun c => ¬ (c = '$' || c = ',' || c = '€' || c = '£' || c = '¥')))
    pyFloatParse clean

/-- `calculate_similarity` (lines 456-471): Jaccard similarity of the
character sets of the lowered, stripped strings.  Raises `AttributeError`
when a truthy argument is not a string. -/
def calculate_similarity (str1 str2 : Value) : Except String ℚ :=
  if ¬ truthy str1 || ¬ truthy str2 then .ok 0
  else match str1, str2 with
  | .vstr s1, .vstr s2 =>
    let c1 := pyStrip (pyLower s1)
    let c2 := pyStrip (pyLower s2)
    if c1 = c2 then .ok 1
    else
      let a := c1.data.dedup
      let b := c2.data.dedup
      let common := (a.filter (fun c => b.contains c)).length
      let total := (a ++ b).dedup.length
      .ok (if total = 0 then 0 else (common : ℚ) / (total : ℚ))
  | _, _ => .error "AttributeError: object has no attribute lower"

/-- Lexicographic (code-point) order on character lists — the Python string
`<`. -/
def charListLt : List Char → List Char → Bool
  | [], [] => false
  | [], _ :: _ => true
  | _ :: _, [] => false
  | x :: xs, y :: ys => x < y || (x = y && charListLt xs ys)

/-- Python `>=` between two field values: lexicographic on strings, numeric on
numbers, `TypeError` on mixed or `None` operands. -/
def pyGeB (a b : Value) : Except Unit Bool :=
  match a, b with
  | .vstr x, .vstr y => .ok (!(charListLt x.data y.data))
  | .vnum x, .vnum y => .ok (decide (y ≤ x))
  | _, _ => .error ()

/-- `score_cross_field_consistency` (lines 279-329): base 0.7; the due-date
order check (inside a bare `try/except: pass`), the subtotal-plus-tax check
(strict `< 0.01` here, unlike the validator), and the similar-name penalty
(whose `calculate_similarity` call is NOT guarded and can raise). -/
def score_cross_field_consistency (field : Field) (all_fields : List Field) : Except String ℚ :=
  let field_name := field.name
  let field_value := field.value
  if ¬ truthy field_value then .ok 0
  else
    let field_dict := buildSiblingDict field_name all_fields
    let c0 : ℚ := 7/10
    let c1 :=
      if pyIn "date" (pyLower field_name) then
        if field_name = "due_date" then
          match dictGet field_dict "invoice_date" with
          | some iv =>
            if truthy iv then
              match pyGeB field_value iv with
              | .ok true => c0 + 1/10
              | .ok false => c0 - 1/5
              | .error _ => c0
            else c0
          | none => c0
        else c0
      else c0
    let c2 :=
      if pyIn "total" (pyLower field_name) then
        match safe_float_convert (dictGet field_dict "subtotal"),
              safe_float_convert (dictGet field_dict "tax_amount"),
              safe_float_convert (some field_value) with
        | some subtotal, some tax_amount, some total_amount =>
          if |subtotal + tax_amount - total_amount| < 1/100 then c1 + 1/5 else c1 - 1/10
        | _, _, _ => c1
      else c1
    let r3 :=
      if pyIn "name" (pyLower field_name) then
        let other_names := (field_dict.filter
          (fun p => pyIn "name" (pyLower p.1) && truthy p.2)).map (·.2)
        other_names.foldlM (fun (acc : ℚ) other_name =>
          match calculate_similarity field_value other_name with
          | .error e => (Except.error e : Except String ℚ)
          | .ok sim =>
            Except.ok (if sim > 4/5 && field_value ≠ other_name then acc - 1/10 else acc)) c2
      else Except.ok c2
    match r3 with
    | .error e => .error e
    | .ok c3 => .ok (max 0 (min 1 c3))

/-- `calculate_single_field_confidence` (lines 76-125).  A falsy value gets
confidence exactly 0 with no sub-score computed; otherwise the four
component scores are combined with `scoring_weights`, blended with the
LLM-provided base confidence when that is positive, and clamped to `[0,1]`.
The diagnostic `confidence_breakdown` entry is not modelled. -/
def calculate_single_field_confidence (field : Field) (source_text doc_type : String) (all_fields : List Field) : Except String Field :=
  let base_confidence := field.confidence.getD (1/2)
  if ¬ truthy field.value then .ok { field with confidence := some 0 }
  else
    match score_text_clarity field.value source_text with
    | .error e => .error e
    | .ok text_clarity =>
      match score_context_strength field.name field.value source_text doc_type with
      | .error e => .error e
      | .ok context_strength =>
        match score_pattern_match field.name field.value with
        | .error e => .error e
        | .ok pattern_match =>
          match score_cross_field_consistency field all_fields with
          | .error e => .error e
          | .ok consistency_score =>
            let final_confidence :=
              text_clarity * scoring_weights.text_clarity +
              context_strength * scoring_weights.context_strength +
              pattern_match * scoring_weights.pattern_match +
              consistency_score * scoring_weights.consistency
            let final_confidence :=
              if 0 < base_confidence
              then final_confidence * (7/10) + base_confidence * (3/10)
              else final_confidence
            let final_confidence := max 0 (min 1 final_confidence)
            .ok { field with confidence := some final_confidence }

/-- `get_critical_fields` (lines 366-373): the per-type critical-field table,
with the invoice list as fallback for an unknown type. -/
def get_critical_fields (doc_type : String) : List String :=
  let critical_fields :=
    [("invoice", ["invoice_number", "total_amount", "vendor_name", "invoice_date"]),
     ("medical_bill", ["patient_name", "provider_name", "total_charges", "service_date"]),
     ("prescription", ["patient_name", "doctor_name", "medications", "prescription_date"])]
  ((critical_fields.find? (fun p => p.1 == doc_type)).map (·.2)).getD
    ["invoice_number", "total_amount", "vendor_name", "invoice_date"]

/-- `next((f['confidence'] for f in fields if f['name'] == c), 0)` over scored
fields.  A scored field always carries a confidence (the scorer writes it),
so the missing-key access error of raw Python dictionaries is not modelled:
an absent entry reads as 0. -/
def firstConfOf (fields : List Field) (c : String) : ℚ :=
  match fields.find? (fun f => f.name == c) with
  | some f => f.confidence.getD 0
  | none => 0

/-- `calculate_overall_confidence` (lines 331-364).  `stdFn` models the
external `np.std`; it is consulted exactly where the source writes
`np.std(confidence_scores) if len(confidence_scores) > 1 else 0`. -/
def calculate_overall_confidence (stdFn : List ℚ → ℚ) (confidence_scores : List ℚ) (fields : List Field) (doc_type : String) : ℚ :=
  if confidence_scores.isEmpty then 0
  else
    let mean_confidence := confidence_scores.sum / (confidence_scores.length : ℚ)
    let confidence_std := if 1 < confidence_scores.length then stdFn confidence_scores else 0
    let variance_penalty := min (1/5) (confidence_std * (1/2))
    let critical_fields := get_critical_fields doc_type
    let critical_field_names := fields.map (·.name)
    let critical_bonus := critical_fields.foldl (fun (acc : ℚ) critical_field =>
      if critical_field_names.contains critical_field then
        (if firstConfOf fields critical_field > 4/5 then acc + 1/20 else acc)
      else acc) 0
    let missing_critical :=
      critical_fields.length -
        (critical_fields.filter (fun f => critical_field_names.contains f)).length
    let missing_penalty := (missing_critical : ℚ) * (1/10)
    let field_count_factor := min (1/10) ((fields.length : ℚ) * (1/100))
    let overall_confidence :=
      mean_confidence - variance_penalty + critical_bonus - missing_penalty + field_count_factor
    max 0 (min 1 overall_confidence)

/-- The record returned by `calculate_field_confidence`; the diagnostic
`confidence_metadata` block is not modelled. -/
structure ScoreResult where
  fields : List Field
  overall_confidence : ℚ
  deriving DecidableEq, Repr

/-- The extraction payload consumed by the scorer and the validator.
A missing `doc_type` key is represented by its `get` default `"invoice"`. -/
structure ExtractionResult where
  doc_type : String := "invoice"
  fields : List Field := []
  deriving DecidableEq, Repr

/-- `calculate_field_confidence` (lines 29-74): empty field list short-cuts to
overall confidence 0.0; otherwise each field is scored (any scoring
exception propagates) and the overall confidence is derived.  The source
mutates the field dictionaries in place, so the `fields` list that
`calculate_overall_confidence` receives is the scored list. -/
def calculate_field_confidence (stdFn : List ℚ → ℚ) (extraction_result : ExtractionResult) (source_text doc_type : String) : Except String ScoreResult :=
  let fields := extraction_result.fields
  if fields.isEmpty then .ok { fields := [], overall_confidence := 0 }
  else
    match fields.mapM
        (fun f => calculate_single_field_confidence f source_text doc_type fields) with
    | .error e => .error e
    | .ok scored_fields =>
      let confidence_scores := scored_fields.map (fun f => f.confidence.getD 0)
      .ok { fields := scored_fields,
            overall_confidence :=
              calculate_overall_confidence stdFn confidence_scores scored_fields doc_type }

/-! ## Calendar arithmetic for `datetime.strptime(s, '%Y-%m-%d')` -/

/-- Gregorian leap year. -/
def isLeap (y : Nat) : Bool := y % 4 = 0 && (y % 100 ≠ 0 || y % 400 = 0)

/-- Days in a month of the proleptic Gregorian calendar. -/
def daysInMonth (y m : Nat) : Nat :=
  if m = 2 then (if isLeap y then 29 else 28)
  else if m = 4 || m = 6 || m = 9 || m = 11 then 30
  else 31

/-- Day number of a civil date, with 1970-01-01 as day 0 (the standard
days-from-civil computation; all intermediate values are nonnegative for
years from 1 on). -/
def daysFromCivil (y m d : Nat) : Int :=
  let y' : Int := if m ≤ 2 then (y : Int) - 1 else (y : Int)
  let era := y' / 400
  let yoe := y' - era * 400
  let mp : Int := ((m : Int) + 9) % 12
  let doy := (153 * mp + 2) / 5 + (d : Int) - 1
  let doe := yoe * 365 + yoe / 4 - yoe / 100 + doy
  era * 146097 + doe - 719468

/-- Split a character list on `-`, keeping empty groups, exactly like
`'...'.split('-')`. -/
def splitOnDash (cs : List Char) : List (List Char) :=
  cs.foldr (fun c acc =>
    if c = '-' then [] :: acc
    else match acc with
      | h :: t => (c :: h) :: t
      | [] => [[c]]) [[]]

/-- One numeric group of `%Y` / `%m` / `%d`: nonempty, all digits, at most
`w` of them. -/
def dateGroupOk (w : Nat) (g : List Char) : Bool :=
  ¬ g.isEmpty && g.all Char.isDigit && g.length ≤ w

/-- `datetime.strptime(s, '%Y-%m-%d')`, returning the day number of the parsed
date: three dash-separated all-digit groups of widths at most 4, 2 and 2, a
valid calendar date with year at least 1. -/
def parseDateYMD (s : String) : Option Int :=
  match splitOnDash s.data with
  | [ys, ms, ds] =>
    if dateGroupOk 4 ys && dateGroupOk 2 ms && dateGroupOk 2 ds then
      let y := digitsToNat ys
      let m := digitsToNat ms
      let d := digitsToNat ds
      if 1 ≤ y && 1 ≤ m && m ≤ 12 && 1 ≤ d && d ≤ daysInMonth y m
      then some (daysFromCivil y m d) else none
    else none
  | _ => none

/-- `datetime.strptime(value, '%Y-%m-%d')` on a field value: a non-string
raises `TypeError`, an unparseable string raises `ValueError`; both are
caught identically by the callers. -/
def pyStrptimeYMD (v : Value) : Except Unit Int :=
  match v with
  | .vstr s =>
    match parseDateYMD s with
    | some t => .ok t
    | none => .error ()
  | _ => .error ()

/-! ## DocumentValidator: rule configuration and catalogues -/

/-- The two regex strings appearing in validation-rule configurations. -/
inductive RulePattern where
  /-- `^\d{4}-\d{2}-\d{2}$` -/
  | dateYMD
  /-- `^\(\d{3}\) \d{3}-\d{4}$|^\d{10}$` -/
  | phoneUS
  deriving DecidableEq, Repr

/-- `re.match` for a catalogue pattern against `str(value)`. -/
def ruleMatch (p : RulePattern) (s : String) : Bool :=
  match p with
  | .dateYMD => pyAnchoredMatch matchDateYMD s
  | .phoneUS => pyAnchoredMatch matchPhoneParen s || pyAnchoredMatch matchPhone10 s

/-- One declarative validation rule configuration (one inner dictionary of
`get_*_validation_rules`).  Absent keys are `none` / `[]` / `""`. -/
structure RuleConfig where
  validation : Option String := none
  fields : List String := []
  pattern : Option RulePattern := none
  rule : String := ""
  tolerance : Option ℚ := none
  min_value : Option ℚ := none
  max_value : Option ℚ := none
  description : String := ""
  deriving Repr

/-- `get_invoice_validation_rules` (validation.py lines 16-45). -/
def get_invoice_validation_rules : List (String × RuleConfig) :=
  [("date_format",
    { fields := ["invoice_date", "due_date"], pattern := some .dateYMD,
      description := "Date must be in YYYY-MM-DD format" }),
   ("amount_format",
    { fields := ["subtotal", "tax_amount", "total_amount"],
      validation := some "numeric_positive",
      description := "Amounts must be positive numbers" }),
   ("totals_match",
    { validation := some "cross_field",
      rule := "subtotal + tax_amount = total_amount", tolerance := some (1/100),
      description := "Subtotal plus tax should equal total amount" }),
   ("due_date_logic",
    { validation := some "cross_field", rule := "due_date >= invoice_date",
      description := "Due date should be after or equal to invoice date" }),
   ("required_fields",
    { fields := ["invoice_number", "total_amount", "vendor_name"],
      validation := some "not_empty",
      description := "Critical fields must not be empty" })]

/-- `get_medical_bill_validation_rules` (lines 47-76). -/
def get_medical_bill_validation_rules : List (String × RuleConfig) :=
  [("date_format",
    { fields := ["service_date", "patient_dob"], pattern := some .dateYMD,
      description := "Dates must be in YYYY-MM-DD format" }),
   ("amount_format",
    { fields := ["total_charges", "insurance_paid", "patient_responsibility"],
      validation := some "numeric_positive",
      description := "Amounts must be positive numbers" }),
   ("charges_breakdown",
    { validation := some "cross_field",
      rule := "insurance_paid + patient_responsibility = total_charges",
      tolerance := some (1/100),
      description := "Insurance paid plus patient responsibility should equal total charges" }),
   ("patient_age_logic",
    { validation := some "date_logic",
      rule := "patient_dob should result in reasonable age (0-120 years)",
      description := "Patient date of birth should be realistic" }),
   ("required_fields",
    { fields := ["patient_name", "provider_name", "total_charges"],
      validation := some "not_empty",
      description := "Critical fields must not be empty" })]

/-- `get_prescription_validation_rules` (lines 78-108). -/
def get_prescription_validation_rules : List (String × RuleConfig) :=
  [("date_format",
    { fields := ["prescription_date", "patient_dob"], pattern := some .dateYMD,
      description := "Dates must be in YYYY-MM-DD format" }),
   ("phone_format",
    { fields := ["pharmacy_phone"], pattern := some .phoneUS,
      description := "Phone number must be in valid format" }),
   ("refills_range",
    { fields := ["refills"], validation := some "numeric_range",
      min_value := some 0, max_value := some 12,
      description := "Refills should be between 0 and 12" }),
   ("prescription_age",
    { validation := some "date_logic",
      rule := "prescription_date should be within last 2 years",
      description := "Prescription date should be recent" }),
   ("required_fields",
    { fields := ["patient_name", "doctor_name", "medications"],
      validation := some "not_empty",
      description := "Critical fields must not be empty" })]

/-- `self.validation_rules.get(doc_type, self.validation_rules['invoice'])`. -/
def validationRulesFor (doc_type : String) : List (String × RuleConfig) :=
  if doc_type = "invoice" then get_invoice_validation_rules
  else if doc_type = "medical_bill" then get_medical_bill_validation_rules
  else if doc_type = "prescription" then get_prescription_validation_rules
  else get_invoice_validation_rules

/-! ## DocumentValidator: the individual rule kinds -/

/-- The dictionary returned by each rule application: `passed`, `message`, and
the optional `warning` flag (absent modelled as `false`). -/
structure RuleResult where
  passed : Bool
  message : String
  warning : Bool := false
  deriving DecidableEq, Repr

/-- `validate_pattern` (lines 180-193): every listed, truthy field must match
the pattern when rendered by `str`; the first offender fails the rule.  A
configuration without a pattern key yields the empty pattern, which matches
everything. -/
def validate_pattern (rule_config : RuleConfig) (field_dict : List (String × Value)) : RuleResult :=
  let check := fun (v : Value) =>
    match rule_config.pattern with
    | some p => ruleMatch p (pyStrOfValue v)
    | none => true
  match rule_config.fields.find? (fun f =>
      match dictGet field_dict f with
      | some v => truthy v && !(check v)
      | none => false) with
  | some field_name =>
    { passed := false,
      message := field_name ++ ": " ++
        (if rule_config.description.data.isEmpty then "Pattern validation failed"
         else rule_config.description) }
  | none => { passed := true, message := "Pattern validation passed" }

/-- `float(value)` on a stored field value (`None` raises `TypeError`, a bad
string raises `ValueError`; the callers catch both). -/
def pyFloatOfValue (v : Value) : Except Unit ℚ :=
  match v with
  | .vnum q => .ok q
  | .vstr s =>
    match pyFloatParse s with
    | some q => .ok q
    | none => .error ()
  | .vnone => .error ()

/-- The first complaint produced while walking the listed fields of
`validate_numeric_positive` / `validate_numeric_range`.  `check` receives the
field name, the parsed number and the raw value and reports a failure
message, if any; an unparseable value fails with the shared
"not a valid number" message. -/
def numericCheckFirst (fields_to_check : List String) (field_dict : List (String × Value))
    (check : String → ℚ → Value → Option String) : Option String :=
  fields_to_check.foldl (fun acc f =>
    match acc with
    | some m => some m
    | none =>
      match dictGet field_dict f with
      | some v =>
        if v = .vnone then none
        else
          match pyFloatOfValue v with
          | .ok q => check f q v
          | .error _ => some (f ++ " is not a valid number: " ++ pyStrOfValue v)
      | none => none) none

/-- `validate_numeric_positive` (lines 195-215): present fields other than
`None` must parse as numbers and be nonnegative. -/
def validate_numeric_positive (rule_config : RuleConfig) (field_dict : List (String × Value)) : RuleResult :=
  match numericCheckFirst rule_config.fields field_dict (fun f q v =>
      if q < 0 then some (f ++ " must be positive, got: " ++ pyStrOfValue v) else none) with
  | some m => { passed := false, message := m }
  | none => { passed := true, message := "Numeric validation passed" }

/-- Rendering of a configured bound in the range-failure message (`-inf` /
`inf` when the bound is absent, as in the source defaults). -/
def boundStr (b : Option ℚ) (absent : String) : String :=
  match b with
  | some q => pyStrNum q
  | none => absent

/-- `validate_numeric_range` (lines 217-239): present fields other than `None`
must parse as numbers and lie within the configured bounds (an absent bound
is infinite). -/
def validate_numeric_range (rule_config : RuleConfig) (field_dict : List (String × Value)) : RuleResult :=
  match numericCheckFirst rule_config.fields field_dict (fun f q v =>
      let okLo := match rule_config.min_value with | some l => decide (l ≤ q) | none => true
      let okHi := match rule_config.max_value with | some h => decide (q ≤ h) | none => true
      if okLo && okHi then none
      else some (f ++ " must be between " ++ boundStr rule_config.min_value "-inf" ++
        " and " ++ boundStr rule_config.max_value "inf" ++ ", got: " ++ pyStrOfValue v)) with
  | some m => { passed := false, message := m }
  | none => { passed := true, message := "Range validation passed" }

/-- `float(field_dict.get(name, 0) or 0)`: an absent or falsy operand reads as
0; a present truthy operand must convert with `float`, whose `ValueError` /
`TypeError` is caught by the enclosing `try` of `validate_cross_field`. -/
def crossFieldOperand (field_dict : List (String × Value)) (name : String) : Except Unit ℚ :=
  match dictGet field_dict name with
  | none => .ok 0
  | some v => if ¬ truthy v then .ok 0 else pyFloatOfValue v

/-- Python `<` between two field values (strings lexicographically, numbers
numerically, `TypeError` otherwise). -/
def pyLtB (a b : Value) : Except Unit Bool :=
  match a, b with
  | .vstr x, .vstr y => .ok (charListLt x.data y.data)
  | .vnum x, .vnum y => .ok (decide (x < y))
  | _, _ => .error ()

/-- The `try` body of `validate_cross_field` (lines 246-280): the three
hand-coded cross-field rules selected by substring search on the configured
rule text; `.error` is a raised `ValueError`/`TypeError`. -/
def crossFieldBody (rule_config : RuleConfig) (field_dict : List (String × Value)) : Except Unit RuleResult :=
  let rule := rule_config.rule
  let tolerance := rule_config.tolerance.getD (1/100)
  if pyIn "subtotal + tax_amount = total_amount" rule then
      match crossFieldOperand field_dict "subtotal",
            crossFieldOperand field_dict "tax_amount",
            crossFieldOperand field_dict "total_amount" with
      | .ok subtotal, .ok tax_amount, .ok total_amount =>
        let calculated_total := subtotal + tax_amount
        if |calculated_total - total_amount| > tolerance then
          .ok { passed := false,
                message := "Total mismatch: " ++ pyStrNum subtotal ++ " + " ++
                  pyStrNum tax_amount ++ " = " ++ pyStrNum calculated_total ++
                  ", but total is " ++ pyStrNum total_amount }
        else .ok { passed := true, message := "Cross-field validation passed" }
      | _, _, _ => .error ()
    else if pyIn "insurance_paid + patient_responsibility = total_charges" rule then
      match crossFieldOperand field_dict "insurance_paid",
            crossFieldOperand field_dict "patient_responsibility",
            crossFieldOperand field_dict "total_charges" with
      | .ok insurance_paid, .ok patient_responsibility, .ok total_charges =>
        let calculated_total := insurance_paid + patient_responsibility
        if |calculated_total - total_charges| > tolerance then
          .ok { passed := false,
                message := "Charges mismatch: " ++ pyStrNum insurance_paid ++ " + " ++
                  pyStrNum patient_responsibility ++ " = " ++ pyStrNum calculated_total ++
                  ", but total charges is " ++ pyStrNum total_charges }
        else .ok { passed := true, message := "Cross-field validation passed" }
      | _, _, _ => .error ()
    else if pyIn "due_date >= invoice_date" rule then
      match dictGet field_dict "invoice_date", dictGet field_dict "due_date" with
      | some invoice_date, some due_date =>
        if truthy invoice_date && truthy due_date then
          match pyLtB due_date invoice_date with
          | .error e => .error e
          | .ok lt =>
            if lt then
              .ok { passed := false,
                    message := "Due date " ++ pyStrOfValue due_date ++
                      " is before invoice date " ++ pyStrOfValue invoice_date }
            else .ok { passed := true, message := "Cross-field validation passed" }
        else .ok { passed := true, message := "Cross-field validation passed" }
      | _, _ => .ok { passed := true, message := "Cross-field validation passed" }
    else .ok { passed := true, message := "Cross-field validation passed" }

/-- `validate_cross_field` (lines 241-288): run the `try` body, converting a
raised `ValueError`/`TypeError` into a failed rule. -/
def validate_cross_field (rule_config : RuleConfig) (field_dict : List (String × Value)) : RuleResult :=
  match crossFieldBody rule_config field_dict with
  | .ok r => r
  | .error _ =>
    { passed := false, message := "Cross-field validation error: invalid operand" }

/-- Fixed-point rendering used for the `:.1f` age interpolation; rounding-mode
fine print of Python float formatting is not modelled (no claim reads this
message). -/
def format1 (q : ℚ) : String :=
  let tenths : Int := ⌊q * 10 + 1/2⌋
  pyStrNum ((tenths : ℚ) / 10)

/-- The `try` body of `validate_date_logic` (lines 294-316): the
reasonable-age rule and the prescription-recency rule, selected by substring
search on the rule text.  Only the failing recency branch carries the
`warning := true` flag.  `now` is the current day number (`datetime.now()`). -/
def dateLogicBody (now : Int) (rule_config : RuleConfig) (field_dict : List (String × Value)) : Except Unit RuleResult :=
  let rule := rule_config.rule
  if pyIn "reasonable age" rule then
      match dictGet field_dict "patient_dob" with
      | some patient_dob =>
        if truthy patient_dob then
          match pyStrptimeYMD patient_dob with
          | .error e => .error e
          | .ok dob_date =>
            let age : ℚ := ((now - dob_date : Int) : ℚ) / (1461/4)
            if ¬ (0 ≤ age ∧ age ≤ 120) then
              .ok { passed := false,
                    message := "Unrealistic patient age: " ++ format1 age ++ " years" }
            else .ok { passed := true, message := "Date logic validation passed" }
        else .ok { passed := true, message := "Date logic validation passed" }
      | none => .ok { passed := true, message := "Date logic validation passed" }
    else if pyIn "within last 2 years" rule then
      match dictGet field_dict "prescription_date" with
      | some prescription_date =>
        if truthy prescription_date then
          match pyStrptimeYMD prescription_date with
          | .error e => .error e
          | .ok rx_date =>
            let days_old := now - rx_date
            if days_old > 730 then
              .ok { passed := false,
                    message := "Prescription is " ++ toString days_old ++
                      " days old (over 2 years)",
                    warning := true }
            else .ok { passed := true, message := "Date logic validation passed" }
        else .ok { passed := true, message := "Date logic validation passed" }
      | none => .ok { passed := true, message := "Date logic validation passed" }
    else .ok { passed := true, message := "Date logic validation passed" }

/-- `validate_date_logic` (lines 290-324): run the `try` body, converting a
raised `ValueError`/`TypeError` into a failed rule. -/
def validate_date_logic (now : Int) (rule_config : RuleConfig) (field_dict : List (String × Value)) : RuleResult :=
  match dateLogicBody now rule_config field_dict with
  | .ok r => r
  | .error _ =>
    { passed := false, message := "Date logic validation error: invalid date" }

/-- The per-field condition of `validate_not_empty` (line 332):
`not value or (isinstance(value, str) and not value.strip())`, where `value`
is `field_dict.get(field_name)` — true when the field is absent, falsy, or a
string that is blank after trimming. -/
def notEmptyBad (field_dict : List (String × Value)) (field_name : String) : Bool :=
  match dictGet field_dict field_name with
  | none => true
  | some v =>
    !(truthy v) ||
      (match v with
       | .vstr s => (pyStrip s).data.isEmpty
       | _ => false)

/-- The per-field loop of `validate_not_empty` (lines 330-336): walk the
listed fields in order and fail the rule at the first bad one, naming it. -/
def validateNotEmptyLoop (field_dict : List (String × Value)) : List String → RuleResult
  | [] => { passed := true, message := "Required fields validation passed" }
  | field_name :: rest =>
    if notEmptyBad field_dict field_name
    then { passed := false,
           message := "Required field " ++ field_name ++ " is empty or missing" }
    else validateNotEmptyLoop field_dict rest

/-- `validate_not_empty` (lines 326-338). -/
def validate_not_empty (rule_config : RuleConfig) (field_dict : List (String × Value)) : RuleResult :=
  validateNotEmptyLoop field_dict rule_config.fields

/-- The failure condition claimed by the spec for one listed field: absent, or
a string that is blank after trimming (any present non-string value passes). -/
def specNotEmptyBad (field_dict : List (String × Value)) (field_name : String) : Bool :=
  match dictGet field_dict field_name with
  | none => true
  | some (.vstr s) => (pyStrip s).data.isEmpty
  | some _ => false

/-- `apply_validation_rule` (lines 148-178): dispatch on the configured
validation kind, defaulting to pattern validation when a pattern key is
present or no kind is given. -/
def apply_validation_rule (now : Int) (rule_config : RuleConfig) (field_dict : List (String × Value)) : RuleResult :=
  let validation_type := rule_config.validation.getD "pattern"
  if validation_type = "pattern" || rule_config.pattern.isSome then
    validate_pattern rule_config field_dict
  else if validation_type = "numeric_positive" then
    validate_numeric_positive rule_config field_dict
  else if validation_type = "numeric_range" then
    validate_numeric_range rule_config field_dict
  else if validation_type = "cross_field" then
    validate_cross_field rule_config field_dict
  else if validation_type = "date_logic" then
    validate_date_logic now rule_config field_dict
  else if validation_type = "not_empty" then
    validate_not_empty rule_config field_dict
  else
    { passed := false, message := "Unknown validation type: " ++ validation_type }

/-- The three accumulating lists of `validate_extraction`. -/
structure RuleOutcomes where
  passed_rules : List String
  failed_rules : List String
  warnings : List String
  deriving DecidableEq, Repr

/-- The rule loop of `validate_extraction` (lines 129-141), abstracted over
the rule application: a passing rule is recorded in `passed_rules`; a failing
rule in `failed_rules`, with its message copied to `warnings` when flagged as
a warning; an application that raises is caught and recorded as the failed
rule `"<rule_name>_error"` with the exception message in `warnings`, and the
loop continues with the remaining rules. -/
def validationRuleLoop (applyRule : String → RuleConfig → Except String RuleResult) :
    List (String × RuleConfig) → RuleOutcomes
  | [] => { passed_rules := [], failed_rules := [], warnings := [] }
  | (rule_name, rule_config) :: rest =>
    let t := validationRuleLoop applyRule rest
    match applyRule rule_name rule_config with
    | .ok result =>
      if result.passed then { t with passed_rules := rule_name :: t.passed_rules }
      else
        { t with failed_rules := rule_name :: t.failed_rules,
                 warnings := (if result.warning then [result.message] else []) ++ t.warnings }
    | .error e =>
      { t with failed_rules := (rule_name ++ "_error") :: t.failed_rules,
               warnings := ("Validation error in " ++ rule_name ++ ": " ++ e) :: t.warnings }

/-- The report returned by `validate_extraction`. -/
structure ValidationResults where
  passed_rules : List String
  failed_rules : List String
  warnings : List String
  notes : String
  deriving DecidableEq, Repr

/-- `generate_validation_notes` (lines 340-362). -/
def generate_validation_notes (outcomes : RuleOutcomes) (fields : List Field) : String :=
  let failed_count := outcomes.failed_rules.length
  let low_confidence_fields := fields.filter (fun f => f.confidence.getD 0 < 3/5)
  let notes_parts :=
    (if 0 < failed_count then [toString failed_count ++ " validation rules failed"] else []) ++
    (if 0 < low_confidence_fields.length then
      [toString low_confidence_fields.length ++ " low-confidence fields"] else []) ++
    (if 0 < outcomes.warnings.length then
      [toString outcomes.warnings.length ++ " warnings"] else [])
  if notes_parts.isEmpty then "All validations passed successfully"
  else String.intercalate "; " notes_parts

/-- `validate_extraction` (lines 110-146): build the field dictionary
(later duplicates overwrite earlier ones), fetch the catalogue for the
document type, run every rule through the loop, and attach the summary
notes.  Within this embedding the concrete rule application is total, so it
is injected into the loop as an always-`ok` application. -/
def validate_extraction (now : Int) (extraction_result : ExtractionResult) : ValidationResults :=
  let doc_type := extraction_result.doc_type
  let fields := extraction_result.fields
  let field_dict := buildFieldDict fields
  let rules := validationRulesFor doc_type
  let outcomes := validationRuleLoop
    (fun _ cfg => Except.ok (apply_validation_rule now cfg field_dict)) rules
  { passed_rules := outcomes.passed_rules,
    failed_rules := outcomes.failed_rules,
    warnings := outcomes.warnings,
    notes := generate_validation_notes outcomes fields }

/-! ## Specification-side definitions

These two definitions are written from the WORDS of the specification
(spec.md section 4.1, document-level algorithm and critical-field sets), to
be compared with the source-derived `calculate_overall_confidence` /
`get_critical_fields`. -/

/-- The per-type critical-field sets as listed in the spec, with the invoice
set as the fallback for an unknown type. -/
def specCriticalFields (doc_type : String) : List String :=
  if doc_type = "invoice" then
    ["invoice_number", "total_amount", "vendor_name", "invoice_date"]
  else if doc_type = "medical_bill" then
    ["patient_name", "provider_name", "total_charges", "service_date"]
  else if doc_type = "prescription" then
    ["patient_name", "doctor_name", "medications", "prescription_date"]
  else
    ["invoice_number", "total_amount", "vendor_name", "invoice_date"]

/-- The document-level formula as worded by the spec:
`clamp(mean − min(0.2, 0.5·stdev) + 0.05·|critical present with confidence > 0.8|`
`− 0.1·|critical absent| + min(0.1, 0.01·field_count))`.
`stdFn` models `np.std` (the standard deviation of one sample is 0). -/
def specOverallConfidence (stdFn : List ℚ → ℚ) (confidences : List ℚ) (fields : List Field) (doc_type : String) : ℚ :=
  let mean := confidences.sum / (confidences.length : ℚ)
  let stdev := if 1 < confidences.length then stdFn confidences else 0
  let criticals := specCriticalFields doc_type
  let names := fields.map (·.name)
  let presentHigh := (criticals.filter
    (fun c => names.contains c && firstConfOf fields c > 4/5)).length
  let absent := (criticals.filter (fun c => !(names.contains c))).length
  max 0 (min 1
    (mean - min (1/5) ((1/2) * stdev) + (1/20) * (presentHigh : ℚ) -
      (1/10) * (absent : ℚ) + min (1/10) ((1/100) * (fields.length : ℚ))))

/-! ## Helper lemmas -/

theorem dictGet_dictSet (d : List (String × Value)) (k k' : String) (v : Value) :
    dictGet (dictSet d k v) k' = if k' = k then some v else dictGet d k' := by
  induction d with
  | nil =>
    by_cases h : k' = k
    · subst h; simp [dictSet, dictGet, List.find?]
    · have hb : (k == k') = false := beq_eq_false_iff_ne.mpr (Ne.symm h)
      simp [dictSet, dictGet, List.find?, hb, h]
  | cons a t ih =>
    by_cases hk : a.1 = k
    · have hset : dictSet (a :: t) k v = (k, v) :: t := by simp [dictSet, hk]
      rw [hset]
      by_cases h : k' = k
      · subst h; simp [dictGet, List.find?]
      · have hb : (k == k') = false := beq_eq_false_iff_ne.mpr (Ne.symm h)
        have hb2 : (a.1 == k') = false := by
          rw [hk]; exact hb
        simp [dictGet, List.find?, hb, hb2, h]
    · have hset : dictSet (a :: t) k v = a :: dictSet t k v := by simp [dictSet, hk]
      rw [hset]
      by_cases h2 : a.1 = k'
      · have hne : k' ≠ k := fun hh => hk (h2.trans hh)
        have hb : (a.1 == k') = true := beq_iff_eq.mpr h2
        simp [dictGet, List.find?, hb, hne]
      · have hb : (a.1 == k') = false := beq_eq_false_iff_ne.mpr h2
        simp only [dictGet, List.find?, hb] at ih ⊢
        exact ih

theorem dictGet_foldl_dictSet (fields : List Field) (d : List (String × Value)) (n : String) :
    dictGet (fields.foldl (fun d f => dictSet d f.name f.value) d) n =
      ((fields.reverse.find? (fun f => f.name == n)).map (fun f => f.value)).or (dictGet d n) := by
  induction fields generalizing d with
  | nil => simp
  | cons f fs ih =>
    simp only [List.foldl_cons, ih, List.reverse_cons, List.find?_append]
    cases hf : fs.reverse.find? (fun f => f.name == n) with
    | some g => simp [Option.or]
    | none =>
      simp only [Option.map_none', Option.none_or, List.find?]
      by_cases h : f.name = n
      · have hb : (f.name == n) = true := beq_iff_eq.mpr h
        simp [hb, dictGet_dictSet, h, Option.or]
      · have hb : (f.name == n) = false := beq_eq_false_iff_ne.mpr h
        simp [hb, dictGet_dictSet, Ne.symm h]

/-! ## Claims -/

/-- C10: if the input field list contains multiple field records with the same
name, both the validator field lookup (`validate_extraction`, the dictionary
comprehension of line 117) and the Scorer cross-field sibling lookup
(`score_cross_field_consistency`, lines 290-291) resolve a name to the value
of its LAST occurrence in list order; earlier occurrences are ignored. -/
theorem C10_duplicate_names_last_occurrence_wins :
    (∀ (fields : List Field) (n : String),
       dictGet (buildFieldDict fields) n =
         (fields.reverse.find? (fun f => f.name == n)).map (fun f => f.value))
    ∧ (∀ (excl : String) (fields : List Field) (n : String),
       dictGet (buildSiblingDict excl fields) n =
         ((fields.filter (fun f => f.name ≠ excl)).reverse.find?
             (fun f => f.name == n)).map (fun f => f.value)) := by
  constructor
  · intro fields n
    have h := dictGet_foldl_dictSet fields [] n
    simpa [buildFieldDict, dictGet] using h
  · intro excl fields n
    have h := dictGet_foldl_dictSet (fields.filter (fun f => f.name ≠ excl)) [] n
    simpa [buildSiblingDict, buildFieldDict, dictGet] using h

/-- The happy path of `calculate_single_field_confidence` in terms of its four
component scores. -/
theorem calc_single_components (f : Field) (src dt : String) (all : List Field)
    (tc cs pm con : ℚ)
    (hv : truthy f.value = true)
    (htc : score_text_clarity f.value src = .ok tc)
    (hcs : score_context_strength f.name f.value src dt = .ok cs)
    (hpm : score_pattern_match f.name f.value = .ok pm)
    (hcon : score_cross_field_consistency f all = .ok con) :
    calculate_single_field_confidence f src dt all =
      .ok { f with confidence := some (max 0 (min 1
        (if 0 < f.confidence.getD (1/2)
         then (tc * (3/10) + cs * (1/4) + pm * (1/4) + con * (1/5)) * (7/10) +
           f.confidence.getD (1/2) * (3/10)
         else tc * (3/10) + cs * (1/4) + pm * (1/4) + con * (1/5)))) } := by
  simp only [calculate_single_field_confidence, hv, htc, hcs, hpm, hcon]
  norm_num [scoring_weights]

/-- C1: the confidence assigned by the Scorer to any field it returns lies in
`[0,1]`; a field whose value is falsy (null or empty) gets confidence exactly
0, skipping all sub-scores; the document-level overall confidence
(`calculate_overall_confidence`) always lies in `[0,1]`, and an empty
confidence list — in particular an empty field list, for which
`calculate_field_confidence` short-circuits — yields overall confidence
exactly 0. -/
theorem C1_confidence_bounds :
    (∀ (f : Field) (src dt : String) (all : List Field) (f' : Field),
       calculate_single_field_confidence f src dt all = .ok f' →
       ∃ c, f'.confidence = some c ∧ 0 ≤ c ∧ c ≤ 1)
    ∧ (∀ (f : Field) (src dt : String) (all : List Field),
       truthy f.value = false →
       calculate_single_field_confidence f src dt all = .ok { f with confidence := some 0 })
    ∧ (∀ (stdFn : List ℚ → ℚ) (scores : List ℚ) (fields : List Field) (dt : String),
       0 ≤ calculate_overall_confidence stdFn scores fields dt ∧
       calculate_overall_confidence stdFn scores fields dt ≤ 1)
    ∧ (∀ (stdFn : List ℚ → ℚ) (fields : List Field) (dt : String),
       calculate_overall_confidence stdFn [] fields dt = 0)
    ∧ (∀ (stdFn : List ℚ → ℚ) (ext : ExtractionResult) (src dt : String),
       ext.fields = [] →
       calculate_field_confidence stdFn ext src dt =
         .ok { fields := [], overall_confidence := 0 }) := by
  refine ⟨?_, ?_, ?_, ?_, ?_⟩
  · intro f src dt all f' h
    cases hv : truthy f.value with
    | false =>
      simp only [calculate_single_field_confidence, hv] at h
      simp only [Bool.false_eq_true, not_false_eq_true, if_true, Except.ok.injEq] at h
      exact ⟨0, by rw [← h], le_refl 0, by norm_num⟩
    | true =>
      simp only [calculate_single_field_confidence, hv, eq_self_iff_true,
        not_true_eq_false, if_false] at h
      cases htc : score_text_clarity f.value src with
      | error e => rw [htc] at h; simp at h
      | ok tc =>
        rw [htc] at h
        cases hcs : score_context_strength f.name f.value src dt with
        | error e => rw [hcs] at h; simp at h
        | ok cs =>
          rw [hcs] at h
          cases hpm : score_pattern_match f.name f.value with
          | error e => rw [hpm] at h; simp at h
          | ok pm =>
            rw [hpm] at h
            cases hcon : score_cross_field_consistency f all with
            | error e => rw [hcon] at h; simp at h
            | ok con =>
              rw [hcon] at h
              simp only [Except.ok.injEq] at h
              subst h
              exact ⟨_, rfl, le_max_left _ _, max_le (by norm_num) (min_le_left _ _)⟩
  · intro f src dt all hv
    simp [calculate_single_field_confidence, hv]
  · intro stdFn scores fields dt
    by_cases hs : scores.isEmpty <;>
      simp only [calculate_overall_confidence, hs, if_true, if_false]
    · norm_num
    · exact ⟨le_max_left _ _, max_le (by norm_num) (min_le_left _ _)⟩
  · intro stdFn fields dt
    simp [calculate_overall_confidence]
  · intro stdFn ext src dt h
    simp [calculate_field_confidence, h]

/-- Witness for C1: a record with a null value comes back with confidence
exactly 0, which lies in `[0,1]`; scoring an empty extraction yields a result
with overall confidence exactly 0. -/
theorem C1_confidence_bounds_witness :
    (∃ c : ℚ,
       ({ name := "x", value := Value.vnone, confidence := some 0 : Field}).confidence = some c ∧
       0 ≤ c ∧ c ≤ 1) ∧
    calculate_field_confidence (fun _ => 0) { doc_type := "invoice", fields := [] } "" "invoice" =
      .ok { fields := [], overall_confidence := 0 } :=
  ⟨C1_confidence_bounds.1 { name := "x", value := Value.vnone, confidence := none } "" "" [] _
     (C1_confidence_bounds.2.1 { name := "x", value := Value.vnone, confidence := none }
       "" "" [] (by decide)),
   C1_confidence_bounds.2.2.2.2 (fun _ => 0)
     { doc_type := "invoice", fields := [] } "" "invoice" rfl⟩

theorem validationRuleLoop_error_recorded
    (applyRule : String → RuleConfig → Except String RuleResult)
    (rules : List (String × RuleConfig)) (n : String) (cfg : RuleConfig) (e : String)
    (hmem : (n, cfg) ∈ rules) (herr : applyRule n cfg = .error e) :
    (n ++ "_error") ∈ (validationRuleLoop applyRule rules).failed_rules ∧
    ("Validation error in " ++ n ++ ": " ++ e) ∈ (validationRuleLoop applyRule rules).warnings := by
  induction rules with
  | nil => cases hmem
  | cons hd tl ih =>
    obtain ⟨m, c⟩ := hd
    rw [List.mem_cons] at hmem
    rcases hmem with heq | hmem
    · injection heq with h1 h2
      subst h1; subst h2
      simp only [validationRuleLoop, herr]
      exact ⟨List.mem_cons_self _ _, List.mem_cons_self _ _⟩
    · obtain ⟨ihf, ihw⟩ := ih hmem
      simp only [validationRuleLoop]
      cases happly : applyRule m c with
      | ok r =>
        by_cases hp : r.passed = true
        · simp only [hp, if_true]
          exact ⟨ihf, ihw⟩
        · simp only [hp, if_false]
          exact ⟨List.mem_cons_of_mem _ ihf, List.mem_append_right _ ihw⟩
      | error e2 =>
        exact ⟨List.mem_cons_of_mem _ ihf, List.mem_cons_of_mem _ ihw⟩

theorem validationRuleLoop_covers
    (applyRule : String → RuleConfig → Except String RuleResult)
    (rules : List (String × RuleConfig)) (n' : String) (cfg' : RuleConfig)
    (hmem : (n', cfg') ∈ rules) :
    n' ∈ (validationRuleLoop applyRule rules).passed_rules ∨
    n' ∈ (validationRuleLoop applyRule rules).failed_rules ∨
    (n' ++ "_error") ∈ (validationRuleLoop applyRule rules).failed_rules := by
  induction rules with
  | nil => cases hmem
  | cons hd tl ih =>
    obtain ⟨m, c⟩ := hd
    rw [List.mem_cons] at hmem
    rcases hmem with heq | hmem
    · injection heq with h1 h2
      subst h1; subst h2
      simp only [validationRuleLoop]
      cases happly : applyRule n' cfg' with
      | ok r =>
        by_cases hp : r.passed = true
        · simp only [hp, if_true]
          exact Or.inl (List.mem_cons_self _ _)
        · simp only [hp, if_false]
          exact Or.inr (Or.inl (List.mem_cons_self _ _))
      | error e2 =>
        exact Or.inr (Or.inr (List.mem_cons_self _ _))
    · rcases ih hmem with hp | hf | hfe <;> simp only [validationRuleLoop]
      · cases happly : applyRule m c with
        | ok r =>
          by_cases hpp : r.passed = true
          · simp only [hpp, if_true]
            exact Or.inl (List.mem_cons_of_mem _ hp)
          · simp only [hpp, if_false]
            exact Or.inl hp
        | error e2 => exact Or.inl hp
      · cases happly : applyRule m c with
        | ok r =>
          by_cases hpp : r.passed = true
          · simp only [hpp, if_true]
            exact Or.inr (Or.inl hf)
          · simp only [hpp, if_false]
            exact Or.inr (Or.inl (List.mem_cons_of_mem _ hf))
        | error e2 => exact Or.inr (Or.inl (List.mem_cons_of_mem _ hf))
      · cases happly : applyRule m c with
        | ok r =>
          by_cases hpp : r.passed = true
          · simp only [hpp, if_true]
            exact Or.inr (Or.inr hfe)
          · simp only [hpp, if_false]
            exact Or.inr (Or.inr (List.mem_cons_of_mem _ hfe))
        | error e2 => exact Or.inr (Or.inr (List.mem_cons_of_mem _ hfe))

/-- C2: in the rule loop of `validate_extraction` (lines 129-141,
`validationRuleLoop`), whatever the rule application does, a rule whose
application raises an internal error is recorded as the failed rule
`"<rule_name>_error"` with the exception message appended to `warnings`, and
every rule of the catalogue — before or after the erroring one — still
contributes an outcome: validation is never aborted by a per-rule error. -/
theorem C2_rule_error_caught_and_loop_continues
    (applyRule : String → RuleConfig → Except String RuleResult)
    (rules : List (String × RuleConfig)) (n : String) (cfg : RuleConfig) (e : String)
    (hmem : (n, cfg) ∈ rules) (herr : applyRule n cfg = .error e) :
    ((n ++ "_error") ∈ (validationRuleLoop applyRule rules).failed_rules ∧
     ("Validation error in " ++ n ++ ": " ++ e) ∈ (validationRuleLoop applyRule rules).warnings) ∧
    (∀ (n' : String) (cfg' : RuleConfig), (n', cfg') ∈ rules →
      n' ∈ (validationRuleLoop applyRule rules).passed_rules ∨
      n' ∈ (validationRuleLoop applyRule rules).failed_rules ∨
      (n' ++ "_error") ∈ (validationRuleLoop applyRule rules).failed_rules) :=
  ⟨validationRuleLoop_error_recorded applyRule rules n cfg e hmem herr,
   fun n' cfg' hmem' => validationRuleLoop_covers applyRule rules n' cfg' hmem'⟩

/-- Witness for C2: a concrete three-rule catalogue whose middle rule raises. -/
theorem C2_rule_error_caught_and_loop_continues_witness :
    (("boom_error") ∈ (validationRuleLoop
        (fun nm _ => if nm = "boom" then (.error "kaput" : Except String RuleResult)
                     else .ok { passed := true, message := "ok" })
        [("a", {}), ("boom", {}), ("b", {})]).failed_rules ∧
     ("Validation error in boom: kaput") ∈ (validationRuleLoop
        (fun nm _ => if nm = "boom" then (.error "kaput" : Except String RuleResult)
                     else .ok { passed := true, message := "ok" })
        [("a", {}), ("boom", {}), ("b", {})]).warnings) ∧
    ("b" ∈ (validationRuleLoop
        (fun nm _ => if nm = "boom" then (.error "kaput" : Except String RuleResult)
                     else .ok { passed := true, message := "ok" })
        [("a", {}), ("boom", {}), ("b", {})]).passed_rules ∨
     "b" ∈ (validationRuleLoop
        (fun nm _ => if nm = "boom" then (.error "kaput" : Except String RuleResult)
                     else .ok { passed := true, message := "ok" })
        [("a", {}), ("boom", {}), ("b", {})]).failed_rules ∨
     ("b" ++ "_error") ∈ (validationRuleLoop
        (fun nm _ => if nm = "boom" then (.error "kaput" : Except String RuleResult)
                     else .ok { passed := true, message := "ok" })
        [("a", {}), ("boom", {}), ("b", {})]).failed_rules) :=
  ⟨(C2_rule_error_caught_and_loop_continues _ _ "boom" {} "kaput"
      (List.mem_cons_of_mem _ (List.mem_cons_self _ _)) rfl).1,
   (C2_rule_error_caught_and_loop_continues _ _ "boom" {} "kaput"
      (List.mem_cons_of_mem _ (List.mem_cons_self _ _)) rfl).2 "b" {}
      (List.mem_cons_of_mem _ (List.mem_cons_of_mem _ (List.mem_cons_self _ _)))⟩

/-- C8 counterexample: on a field dictionary where every listed field of the
invoice `required_fields` rule is present and none is a blank string — the
number 0 stands at `invoice_number` — the claimed condition ("fails iff some
listed field is absent or a blank-after-trimming string; any present
non-string value passes") predicts a pass, yet the rule fails: Python
truthiness rejects the number 0 before the string check. -/
theorem C8_counterexample :
    (validate_not_empty
       { fields := ["invoice_number", "total_amount", "vendor_name"],
         validation := some "not_empty",
         description := "Critical fields must not be empty" }
       [("invoice_number", .vnum 0), ("total_amount", .vnum 108),
        ("vendor_name", .vstr "Acme")]).passed = false ∧
    (["invoice_number", "total_amount", "vendor_name"].any
       (specNotEmptyBad
         [("invoice_number", .vnum 0), ("total_amount", .vnum 108),
          ("vendor_name", .vstr "Acme")])) = false := by
  constructor
  · decide
  · decide

theorem validateNotEmptyLoop_characterization (field_dict : List (String × Value)) :
    ∀ fs : List String,
      ((validateNotEmptyLoop field_dict fs).passed = false ↔
        ∃ f ∈ fs, notEmptyBad field_dict f = true) ∧
      (∀ f, fs.find? (notEmptyBad field_dict) = some f →
        validateNotEmptyLoop field_dict fs =
          { passed := false,
            message := "Required field " ++ f ++ " is empty or missing" }) := by
  intro fs
  induction fs with
  | nil => simp [validateNotEmptyLoop, List.find?]
  | cons g rest ih =>
    by_cases hb : notEmptyBad field_dict g = true
    · constructor
      · simp [validateNotEmptyLoop, hb]
      · intro f hf
        rw [List.find?_cons, hb] at hf
        injection hf with hf
        subst hf
        simp [validateNotEmptyLoop, hb]
    · have hb' : notEmptyBad field_dict g = false := by
        cases h : notEmptyBad field_dict g
        · rfl
        · exact absurd h hb
      constructor
      · rw [show validateNotEmptyLoop field_dict (g :: rest) =
            validateNotEmptyLoop field_dict rest by simp [validateNotEmptyLoop, hb']]
        rw [(ih).1]
        constructor
        · intro ⟨f, hf, hbad⟩
          exact ⟨f, List.mem_cons_of_mem _ hf, hbad⟩
        · intro ⟨f, hf, hbad⟩
          rcases List.mem_cons.mp hf with rfl | hf2
          · exact absurd hbad hb
          · exact ⟨f, hf2, hbad⟩
      · intro f hf
        rw [List.find?_cons, hb'] at hf
        rw [show validateNotEmptyLoop field_dict (g :: rest) =
            validateNotEmptyLoop field_dict rest by simp [validateNotEmptyLoop, hb']]
        exact (ih).2 f hf

/-- C8 amended: the `not_empty` rule fails iff some listed field is absent,
falsy (`None`, the number 0, the empty string), or a string that is blank
after trimming; on failure the message names exactly the first such field in
the configured order. -/
theorem C8_amended_not_empty_characterization
    (rule_config : RuleConfig) (field_dict : List (String × Value)) :
    ((validate_not_empty rule_config field_dict).passed = false ↔
      ∃ f ∈ rule_config.fields, notEmptyBad field_dict f = true) ∧
    (∀ f, rule_config.fields.find? (notEmptyBad field_dict) = some f →
      validate_not_empty rule_config field_dict =
        { passed := false,
          message := "Required field " ++ f ++ " is empty or missing" }) :=
  validateNotEmptyLoop_characterization field_dict rule_config.fields

/-- Witness for the amended C8: with `vendor_name` missing, the rule fails and
its message names `vendor_name`. -/
theorem C8_amended_not_empty_characterization_witness :
    validate_not_empty
      { fields := ["invoice_number", "total_amount", "vendor_name"],
        validation := some "not_empty",
        description := "Critical fields must not be empty" }
      [("invoice_number", .vstr "INV-001"), ("total_amount", .vnum 108)] =
      { passed := false,
        message := "Required field " ++ "vendor_name" ++ " is empty or missing" } :=
  (C8_amended_not_empty_characterization
    { fields := ["invoice_number", "total_amount", "vendor_name"],
      validation := some "not_empty",
      description := "Critical fields must not be empty" }
    [("invoice_number", .vstr "INV-001"), ("total_amount", .vnum 108)]).2
    "vendor_name" (by decide)

/-- The `totals_match` configuration of the invoice catalogue. -/
def invoiceTotalsCfg : RuleConfig :=
  { validation := some "cross_field",
    rule := "subtotal + tax_amount = total_amount", tolerance := some (1/100),
    description := "Subtotal plus tax should equal total amount" }

/-- C4: the invoice cross-field rule `totals_match` passes iff
`|subtotal + tax_amount − total_amount| ≤ 0.01`, a missing operand reading as
0; in particular 100.00 + 8.00 against 108.00 passes, against 108.02 fails,
and a difference of exactly 0.01 (108.01) passes because the failure check is
strictly greater than the tolerance. -/
theorem C4_totals_match_tolerance :
    ("totals_match", invoiceTotalsCfg) ∈ get_invoice_validation_rules
    ∧ (∀ (field_dict : List (String × Value)) (s t tot : ℚ),
       crossFieldOperand field_dict "subtotal" = .ok s →
       crossFieldOperand field_dict "tax_amount" = .ok t →
       crossFieldOperand field_dict "total_amount" = .ok tot →
       ((validate_cross_field invoiceTotalsCfg field_dict).passed = true ↔
         |s + t - tot| ≤ 1/100))
    ∧ (∀ (field_dict : List (String × Value)) (n : String),
       dictGet field_dict n = none → crossFieldOperand field_dict n = .ok 0)
    ∧ (validate_cross_field invoiceTotalsCfg
        [("subtotal", .vnum 100), ("tax_amount", .vnum 8),
         ("total_amount", .vnum 108)]).passed = true
    ∧ (validate_cross_field invoiceTotalsCfg
        [("subtotal", .vnum 100), ("tax_amount", .vnum 8),
         ("total_amount", .vnum (5401/50))]).passed = false
    ∧ (validate_cross_field invoiceTotalsCfg
        [("subtotal", .vnum 100), ("tax_amount", .vnum 8),
         ("total_amount", .vnum (10801/100))]).passed = true := by
  have hiff : ∀ (field_dict : List (String × Value)) (s t tot : ℚ),
      crossFieldOperand field_dict "subtotal" = .ok s →
      crossFieldOperand field_dict "tax_amount" = .ok t →
      crossFieldOperand field_dict "total_amount" = .ok tot →
      ((validate_cross_field invoiceTotalsCfg field_dict).passed = true ↔
        |s + t - tot| ≤ 1/100) := by
    intro field_dict s t tot hs ht htot
    have hr : pyIn "subtotal + tax_amount = total_amount"
        "subtotal + tax_amount = total_amount" = true := by decide
    simp only [validate_cross_field, crossFieldBody, invoiceTotalsCfg, Option.getD_some, hr,
      eq_self_iff_true, if_true, hs, ht, htot]
    by_cases hc : |s + t - tot| ≤ 1/100
    · rw [if_neg (not_lt.mpr hc)]
      simpa using hc
    · rw [if_pos (not_le.mp hc)]
      simpa using hc
  have htot2 : crossFieldOperand
      [("subtotal", .vnum 100), ("tax_amount", .vnum 8),
       ("total_amount", .vnum (5401/50))] "total_amount" = .ok (5401/50) := by
    have ht : truthy (Value.vnum (5401/50)) = true := by
      norm_num [truthy]
    simp [crossFieldOperand, dictGet, List.find?, ht, pyFloatOfValue]
  have htot3 : crossFieldOperand
      [("subtotal", .vnum 100), ("tax_amount", .vnum 8),
       ("total_amount", .vnum (10801/100))] "total_amount" = .ok (10801/100) := by
    have ht : truthy (Value.vnum (10801/100)) = true := by
      norm_num [truthy]
    simp [crossFieldOperand, dictGet, List.find?, ht, pyFloatOfValue]
  refine ⟨?_, hiff, ?_, ?_, ?_, ?_⟩
  · exact List.mem_cons_of_mem _ (List.mem_cons_of_mem _ (List.mem_cons_self _ _))
  · intro field_dict n h
    simp [crossFieldOperand, h]
  · exact (hiff [("subtotal", .vnum 100), ("tax_amount", .vnum 8), ("total_amount", .vnum 108)]
      100 8 108 rfl rfl rfl).mpr (by norm_num)
  · rw [Bool.eq_false_iff]
    intro hpass
    have := (hiff [("subtotal", .vnum 100), ("tax_amount", .vnum 8),
      ("total_amount", .vnum (5401/50))] 100 8 (5401/50) rfl rfl htot2).mp hpass
    have habs : |(100 : ℚ) + 8 - 5401/50| = 1/50 := by
      have h1 : (100:ℚ) + 8 - 5401/50 = -(1/50) := by norm_num
      rw [h1, abs_neg, abs_of_nonneg (by norm_num : (0:ℚ) ≤ 1/50)]
    rw [habs] at this
    norm_num at this
  · refine (hiff [("subtotal", .vnum 100), ("tax_amount", .vnum 8),
      ("total_amount", .vnum (10801/100))] 100 8 (10801/100) rfl rfl htot3).mpr ?_
    have h1 : (100:ℚ) + 8 - 10801/100 = -(1/100) := by norm_num
    rw [h1, abs_neg, abs_of_nonneg (by norm_num : (0:ℚ) ≤ 1/100)]

/-- Witness for C4: the general tolerance characterization applied at the
concrete passing instance subtotal 100, tax 8, total 108. -/
theorem C4_totals_match_tolerance_witness :
    (validate_cross_field invoiceTotalsCfg
       [("subtotal", .vnum 100), ("tax_amount", .vnum 8),
        ("total_amount", .vnum 108)]).passed = true :=
  (C4_totals_match_tolerance.2.1
    [("subtotal", .vnum 100), ("tax_amount", .vnum 8), ("total_amount", .vnum 108)]
    100 8 108 rfl rfl rfl).mpr (by norm_num)

/-- C3: the claim that per-field scoring never raises fails on the code: for a
truthy numeric value (exactly what `ExtractionAgent.normalize_amount` stores
for amount fields) the first `re.search(pattern, field_value)` of
`score_text_clarity` raises `TypeError`, and
`calculate_single_field_confidence` propagates it.  The 0.5-0.7 multipliers
degrade only string-valued noise; they are never reached here. -/
theorem C3_numeric_value_scoring_raises :
    score_text_clarity (.vnum 108) "Total: 108.00" =
      .error "TypeError: expected string or bytes-like object" ∧
    calculate_single_field_confidence
      { name := "total_amount", value := .vnum 108, confidence := some (9/10) }
      "Total: 108.00" "invoice"
      [{ name := "total_amount", value := .vnum 108, confidence := some (9/10) }] =
      .error "TypeError: expected string or bytes-like object" := by
  exact ⟨rfl, rfl⟩

/-- C7: for a field with a truthy (non-null, non-empty) value whose four
component scores evaluate, the final confidence is
`raw = 0.3·clarity + 0.25·context + 0.25·pattern + 0.2·consistency`, replaced
by `0.7·raw + 0.3·llm_confidence` when the LLM-provided confidence is
positive, and clamped to `[0,1]`. -/
theorem C7_weighted_blend (f : Field) (src dt : String) (all : List Field)
    (tc cs pm con : ℚ)
    (hv : truthy f.value = true)
    (htc : score_text_clarity f.value src = .ok tc)
    (hcs : score_context_strength f.name f.value src dt = .ok cs)
    (hpm : score_pattern_match f.name f.value = .ok pm)
    (hcon : score_cross_field_consistency f all = .ok con) :
    calculate_single_field_confidence f src dt all =
      .ok { f with confidence := some (max 0 (min 1
        (if 0 < f.confidence.getD (1/2)
         then (7/10) * ((3/10) * tc + (1/4) * cs + (1/4) * pm + (1/5) * con) +
           (3/10) * f.confidence.getD (1/2)
         else (3/10) * tc + (1/4) * cs + (1/4) * pm + (1/5) * con))) } := by
  rw [calc_single_components f src dt all tc cs pm con hv htc hcs hpm hcon]
  have h : (if 0 < f.confidence.getD (1/2)
      then (tc * (3/10) + cs * (1/4) + pm * (1/4) + con * (1/5)) * (7/10) +
        f.confidence.getD (1/2) * (3/10)
      else tc * (3/10) + cs * (1/4) + pm * (1/4) + con * (1/5)) =
      (if 0 < f.confidence.getD (1/2)
       then (7/10) * ((3/10) * tc + (1/4) * cs + (1/4) * pm + (1/5) * con) +
         (3/10) * f.confidence.getD (1/2)
       else (3/10) * tc + (1/4) * cs + (1/4) * pm + (1/5) * con) := by
    split <;> ring
  rw [h]

/-- Witness for C7: a concrete string-valued field with LLM confidence 0.5;
the blend yields 0.7·0.715 + 0.3·0.5 = 0.6505. -/
theorem C7_weighted_blend_witness :
    calculate_single_field_confidence
      { name := "x", value := .vstr "ab", confidence := some (1/2) } "ab" "d"
      [{ name := "x", value := .vstr "ab", confidence := some (1/2) }] =
      .ok { name := "x", value := .vstr "ab", confidence := some (1301/2000) } := by
  have h := C7_weighted_blend
    { name := "x", value := .vstr "ab", confidence := some (1/2) } "ab" "d"
    [{ name := "x", value := .vstr "ab", confidence := some (1/2) }]
    1 (3/5) (1/2) (7/10) (by decide)
    (by norm_num +decide [score_text_clarity, clarityOfString, truthy, hasRun, hasRunAux,
      pyStrip, pyIsSpace, containsDLD, startsDLD, pyIn, listIsInfix, pyLower, pyCharLower,
      fuzzy_text_match, min_def])
    (by norm_num +decide [score_context_strength, truthy, contextKeywordsFor,
      context_keywords, validate_field_context, pyIn, listIsInfix, pyLower, pyCharLower,
      pyStrOfValue, List.foldlM, pure, Except.pure, min_def])
    rfl
    (by norm_num +decide [score_cross_field_consistency, truthy, buildSiblingDict,
      buildFieldDict, dictSet, dictGet, List.find?, pyIn, listIsInfix, pyLower,
      pyCharLower, min_def, max_def])
  rw [h]
  norm_num [min_def, max_def]

/-- C9: a field record with no `confidence` key at all reads the default base
confidence 0.5, which is positive, so the 0.7/0.3 blend is always applied to
such fields; only an explicit confidence of 0 (or less) skips the blend. -/
theorem C9_missing_confidence_key_blends (f : Field) (src dt : String) (all : List Field)
    (tc cs pm con : ℚ)
    (hv : truthy f.value = true)
    (htc : score_text_clarity f.value src = .ok tc)
    (hcs : score_context_strength f.name f.value src dt = .ok cs)
    (hpm : score_pattern_match f.name f.value = .ok pm)
    (hcon : score_cross_field_consistency f all = .ok con) :
    (f.confidence = none →
      calculate_single_field_confidence f src dt all =
        .ok { f with confidence := some (max 0 (min 1
          ((7/10) * ((3/10) * tc + (1/4) * cs + (1/4) * pm + (1/5) * con) +
            (3/10) * (1/2)))) })
    ∧ (∀ b : ℚ, f.confidence = some b → b ≤ 0 →
      calculate_single_field_confidence f src dt all =
        .ok { f with confidence := some (max 0 (min 1
          ((3/10) * tc + (1/4) * cs + (1/4) * pm + (1/5) * con))) }) := by
  constructor
  · intro hc
    rw [calc_single_components f src dt all tc cs pm con hv htc hcs hpm hcon, hc]
    rw [Option.getD_none]
    rw [if_pos (by norm_num : (0:ℚ) < 1/2)]
    have h : (tc * (3/10) + cs * (1/4) + pm * (1/4) + con * (1/5)) * (7/10) +
        (1/2 : ℚ) * (3/10) =
        (7/10) * ((3/10) * tc + (1/4) * cs + (1/4) * pm + (1/5) * con) + (3/10) * (1/2) := by
      ring
    rw [h]
  · intro b hc hb
    rw [calc_single_components f src dt all tc cs pm con hv htc hcs hpm hcon, hc]
    rw [Option.getD_some]
    rw [if_neg (not_lt.mpr hb)]
    have h : tc * (3/10) + cs * (1/4) + pm * (1/4) + con * (1/5) =
        (3/10) * tc + (1/4) * cs + (1/4) * pm + (1/5) * con := by
      ring
    rw [h]

/-- Witness for C9: the same field with the confidence key absent blends with
the 0.5 default and lands at 0.6505; with an explicit confidence of 0 the
blend is skipped and the raw weighted sum 0.715 is kept. -/
theorem C9_missing_confidence_key_blends_witness :
    calculate_single_field_confidence
      { name := "x", value := .vstr "ab", confidence := none } "ab" "d"
      [{ name := "x", value := .vstr "ab", confidence := none }] =
      .ok { name := "x", value := .vstr "ab", confidence := some (1301/2000) } ∧
    calculate_single_field_confidence
      { name := "x", value := .vstr "ab", confidence := some 0 } "ab" "d"
      [{ name := "x", value := .vstr "ab", confidence := some 0 }] =
      .ok { name := "x", value := .vstr "ab", confidence := some (143/200) } := by
  constructor
  · have h := (C9_missing_confidence_key_blends
      { name := "x", value := .vstr "ab", confidence := none } "ab" "d"
      [{ name := "x", value := .vstr "ab", confidence := none }]
      1 (3/5) (1/2) (7/10) (by decide)
      (by norm_num +decide [score_text_clarity, clarityOfString, truthy, hasRun, hasRunAux,
        pyStrip, pyIsSpace, containsDLD, startsDLD, pyIn, listIsInfix, pyLower, pyCharLower,
        fuzzy_text_match, min_def])
      (by norm_num +decide [score_context_strength, truthy, contextKeywordsFor,
        context_keywords, validate_field_context, pyIn, listIsInfix, pyLower, pyCharLower,
        pyStrOfValue, List.foldlM, pure, Except.pure, min_def])
      rfl
      (by norm_num +decide [score_cross_field_consistency, truthy, buildSiblingDict,
        buildFieldDict, dictSet, dictGet, List.find?, pyIn, listIsInfix, pyLower,
        pyCharLower, min_def, max_def])).1 rfl
    rw [h]
    norm_num [min_def, max_def]
  · have h := (C9_missing_confidence_key_blends
      { name := "x", value := .vstr "ab", confidence := some 0 } "ab" "d"
      [{ name := "x", value := .vstr "ab", confidence := some 0 }]
      1 (3/5) (1/2) (7/10) (by decide)
      (by norm_num +decide [score_text_clarity, clarityOfString, truthy, hasRun, hasRunAux,
        pyStrip, pyIsSpace, containsDLD, startsDLD, pyIn, listIsInfix, pyLower, pyCharLower,
        fuzzy_text_match, min_def])
      (by norm_num +decide [score_context_strength, truthy, contextKeywordsFor,
        context_keywords, validate_field_context, pyIn, listIsInfix, pyLower, pyCharLower,
        pyStrOfValue, List.foldlM, pure, Except.pure, min_def])
      rfl
      (by norm_num +decide [score_cross_field_consistency, truthy, buildSiblingDict,
        buildFieldDict, dictSet, dictGet, List.find?, pyIn, listIsInfix, pyLower,
        pyCharLower, min_def, max_def])).2 0 rfl (le_refl 0)
    rw [h]
    norm_num [min_def, max_def]

theorem get_critical_fields_eq_spec (doc_type : String) :
    get_critical_fields doc_type = specCriticalFields doc_type := by
  by_cases h1 : doc_type = "invoice"
  · subst h1; rfl
  · by_cases h2 : doc_type = "medical_bill"
    · subst h2; rfl
    · by_cases h3 : doc_type = "prescription"
      · subst h3; rfl
      · have b1 : ("invoice" == doc_type) = false := beq_eq_false_iff_ne.mpr (Ne.symm h1)
        have b2 : ("medical_bill" == doc_type) = false := beq_eq_false_iff_ne.mpr (Ne.symm h2)
        have b3 : ("prescription" == doc_type) = false := beq_eq_false_iff_ne.mpr (Ne.symm h3)
        simp [get_critical_fields, specCriticalFields, List.find?, b1, b2, b3, h1, h2, h3]

theorem criticalBonus_foldl (criticals names : List String) (fields : List Field) (a : ℚ) :
    criticals.foldl (fun (acc : ℚ) critical_field =>
      if names.contains critical_field then
        (if firstConfOf fields critical_field > 4/5 then acc + 1/20 else acc)
      else acc) a =
    a + (1/20) * (((criticals.filter
      (fun c => names.contains c && firstConfOf fields c > 4/5)).length : ℚ)) := by
  induction criticals generalizing a with
  | nil => simp
  | cons c rest ih =>
    simp only [List.foldl_cons, List.filter_cons]
    by_cases h1 : names.contains c = true
    · by_cases h2 : firstConfOf fields c > 4/5
      · have hcond : (names.contains c && decide (firstConfOf fields c > 4/5)) = true := by
          rw [h1, decide_eq_true h2]
          rfl
        rw [if_pos h1, if_pos h2, hcond, if_pos rfl, ih]
        push_cast [List.length_cons]
        ring
      · have hcond : (names.contains c && decide (firstConfOf fields c > 4/5)) = false := by
          rw [decide_eq_false h2]
          exact Bool.and_false _
        rw [if_pos h1, if_neg h2, hcond, if_neg Bool.false_ne_true, ih]
    · have h1f : names.contains c = false := by
        cases hcc : names.contains c
        · rfl
        · exact absurd hcc h1
      have hcond : (names.contains c && decide (firstConfOf fields c > 4/5)) = false := by
        rw [h1f]
        exact Bool.false_and _
      rw [if_neg h1, hcond, if_neg Bool.false_ne_true, ih]

theorem length_sub_filter_cast (l : List String) (p : String → Bool) :
    ((l.length - (l.filter p).length : Nat) : ℚ) =
      ((l.filter (fun c => !(p c))).length : ℚ) := by
  have h := List.length_eq_length_filter_add (l := l) p
  have hsub : l.length - (l.filter p).length = (l.filter (fun c => !(p c))).length := by
    omega
  rw [hsub]

/-- C6: for a non-empty confidence list, the document-level confidence
computed by `calculate_overall_confidence` equals the formula worded by the
spec (`specOverallConfidence`): clamp of mean, minus `min(0.2, 0.5·stdev)`,
plus 0.05 per critical field present with confidence above 0.8, minus 0.1
per absent critical field, plus `min(0.1, 0.01·field_count)` — with the
per-type critical sets and the invoice fallback for unknown types. -/
theorem C6_overall_confidence_formula (stdFn : List ℚ → ℚ) (scores : List ℚ)
    (fields : List Field) (doc_type : String) (h : scores ≠ []) :
    calculate_overall_confidence stdFn scores fields doc_type =
      specOverallConfidence stdFn scores fields doc_type := by
  have hne : scores.isEmpty = false := by
    cases scores with
    | nil => exact absurd rfl h
    | cons a l => rfl
  simp only [calculate_overall_confidence, specOverallConfidence, hne,
    Bool.false_eq_true, if_false, get_critical_fields_eq_spec,
    criticalBonus_foldl, length_sub_filter_cast]
  congr 2
  ring_nf

/-- Witness for C6: the two definitions agree on a concrete two-field invoice
scoring. -/
theorem C6_overall_confidence_formula_witness :
    calculate_overall_confidence (fun _ => 0) [9/10, 4/5]
      [{ name := "invoice_number", value := .vstr "INV-001", confidence := some (9/10) },
       { name := "total_amount", value := .vnum 108, confidence := some (4/5) }] "invoice" =
    specOverallConfidence (fun _ => 0) [9/10, 4/5]
      [{ name := "invoice_number", value := .vstr "INV-001", confidence := some (9/10) },
       { name := "total_amount", value := .vnum 108, confidence := some (4/5) }] "invoice" :=
  C6_overall_confidence_formula (fun _ => 0) [9/10, 4/5]
    [{ name := "invoice_number", value := .vstr "INV-001", confidence := some (9/10) },
     { name := "total_amount", value := .vnum 108, confidence := some (4/5) }] "invoice"
    (by simp)

theorem validate_pattern_warning (cfg : RuleConfig) (fd : List (String × Value)) :
    (validate_pattern cfg fd).warning = false := by
  simp only [validate_pattern]
  repeat' split
  all_goals rfl

theorem validate_numeric_positive_warning (cfg : RuleConfig) (fd : List (String × Value)) :
    (validate_numeric_positive cfg fd).warning = false := by
  unfold validate_numeric_positive
  split <;> rfl

theorem validate_numeric_range_warning (cfg : RuleConfig) (fd : List (String × Value)) :
    (validate_numeric_range cfg fd).warning = false := by
  unfold validate_numeric_range
  split <;> rfl

theorem validateNotEmptyLoop_warning (fd : List (String × Value)) (fs : List String) :
    (validateNotEmptyLoop fd fs).warning = false := by
  induction fs with
  | nil => rfl
  | cons f rest ih =>
    simp only [validateNotEmptyLoop]
    split
    · rfl
    · exact ih

theorem validate_not_empty_warning (cfg : RuleConfig) (fd : List (String × Value)) :
    (validate_not_empty cfg fd).warning = false :=
  validateNotEmptyLoop_warning fd cfg.fields

theorem crossFieldBody_warning (cfg : RuleConfig) (fd : List (String × Value))
    (r : RuleResult) (h : crossFieldBody cfg fd = .ok r) : r.warning = false := by
  simp only [crossFieldBody] at h
  repeat first
    | (injection h with h2; subst h2; rfl)
    | exact absurd h (fun hh => Except.noConfusion hh)
    | split at h

theorem validate_cross_field_warning (cfg : RuleConfig) (fd : List (String × Value)) :
    (validate_cross_field cfg fd).warning = false := by
  unfold validate_cross_field
  cases hb : crossFieldBody cfg fd with
  | ok r => exact crossFieldBody_warning cfg fd r hb
  | error e => rfl

theorem dateLogicBody_warning (now : Int) (cfg : RuleConfig) (fd : List (String × Value))
    (r : RuleResult) (h : dateLogicBody now cfg fd = .ok r) (hw : r.warning = true) :
    pyIn "within last 2 years" cfg.rule = true := by
  simp only [dateLogicBody] at h
  split at h
  · repeat first
      | (injection h with h2; subst h2; simp at hw)
      | exact absurd h (fun hh => Except.noConfusion hh)
      | split at h
  · split at h
    · repeat first
        | assumption
        | split at h
    · injection h with h2
      subst h2
      simp at hw

theorem validate_date_logic_warning (now : Int) (cfg : RuleConfig) (fd : List (String × Value))
    (hw : (validate_date_logic now cfg fd).warning = true) :
    pyIn "within last 2 years" cfg.rule = true := by
  unfold validate_date_logic at hw
  cases hb : dateLogicBody now cfg fd with
  | ok r =>
    rw [hb] at hw
    exact dateLogicBody_warning now cfg fd r hb hw
  | error e =>
    rw [hb] at hw
    simp at hw

theorem warning_only_recency (now : Int) (cfg : RuleConfig) (fd : List (String × Value))
    (hw : (apply_validation_rule now cfg fd).warning = true) :
    pyIn "within last 2 years" cfg.rule = true := by
  simp only [apply_validation_rule] at hw
  split at hw
  · rw [validate_pattern_warning] at hw
    exact Bool.noConfusion hw
  · split at hw
    · rw [validate_numeric_positive_warning] at hw
      exact Bool.noConfusion hw
    · split at hw
      · rw [validate_numeric_range_warning] at hw
        exact Bool.noConfusion hw
      · split at hw
        · rw [validate_cross_field_warning] at hw
          exact Bool.noConfusion hw
        · split at hw
          · exact validate_date_logic_warning now cfg fd hw
          · split at hw
            · rw [validate_not_empty_warning] at hw
              exact Bool.noConfusion hw
            · simp at hw

theorem validationRuleLoop_failed_mem
    (applyRule : String → RuleConfig → Except String RuleResult)
    (rules : List (String × RuleConfig)) (n : String) (cfg : RuleConfig) (r : RuleResult)
    (hmem : (n, cfg) ∈ rules) (hap : applyRule n cfg = .ok r) (hp : r.passed = false) :
    n ∈ (validationRuleLoop applyRule rules).failed_rules ∧
    (r.warning = true → r.message ∈ (validationRuleLoop applyRule rules).warnings) := by
  induction rules with
  | nil => cases hmem
  | cons hd tl ih =>
    obtain ⟨m, c⟩ := hd
    rw [List.mem_cons] at hmem
    rcases hmem with heq | hmem
    · injection heq with h1 h2
      subst h1; subst h2
      simp only [validationRuleLoop, hap, hp, if_false]
      refine ⟨List.mem_cons_self _ _, fun hw => ?_⟩
      rw [hw]
      exact List.mem_append_left _ (List.mem_cons_self _ _)
    · obtain ⟨ihf, ihw⟩ := ih hmem
      simp only [validationRuleLoop]
      cases happly : applyRule m c with
      | ok res =>
        by_cases hpp : res.passed = true
        · simp only [hpp, if_true]
          exact ⟨ihf, fun hw => ihw hw⟩
        · simp only [hpp, if_false]
          exact ⟨List.mem_cons_of_mem _ ihf,
            fun hw => List.mem_append_right _ (ihw hw)⟩
      | error e2 =>
        exact ⟨List.mem_cons_of_mem _ ihf, fun hw => List.mem_cons_of_mem _ (ihw hw)⟩

/-- The `prescription_age` configuration of the prescription catalogue. -/
def prescriptionAgeCfg : RuleConfig :=
  { validation := some "date_logic",
    rule := "prescription_date should be within last 2 years",
    description := "Prescription date should be recent" }

/-- C5: a prescription whose `prescription_date` parses as `YYYY-MM-DD` and
lies more than 730 days before `now` gets `prescription_age` recorded in
`failed_rules` AND its message appended to `warnings`; and this soft-failure
treatment is unique — for every rule of every catalogue other than
`prescription_age`, the rule application never sets the `warning` flag. -/
theorem C5_prescription_age_soft_failure :
    (∀ (now : Int) (fields : List Field) (s : String) (t : Int),
       dictGet (buildFieldDict fields) "prescription_date" = some (.vstr s) →
       parseDateYMD s = some t →
       730 < now - t →
       ("prescription_age" ∈ (validate_extraction now
           { doc_type := "prescription", fields := fields }).failed_rules ∧
        ("Prescription is " ++ toString (now - t) ++ " days old (over 2 years)") ∈
          (validate_extraction now
            { doc_type := "prescription", fields := fields }).warnings))
    ∧ (∀ (doc_type n : String) (cfg : RuleConfig),
       (n, cfg) ∈ validationRulesFor doc_type →
       n ≠ "prescription_age" →
       ∀ (now : Int) (field_dict : List (String × Value)),
         (apply_validation_rule now cfg field_dict).warning = false) := by
  constructor
  · intro now fields s t hdict hparse hold
    have hsne : s.data ≠ [] := by
      intro hnil
      simp only [parseDateYMD, hnil, splitOnDash, List.foldr_nil] at hparse
      exact Option.noConfusion hparse
    have hstr : truthy (.vstr s) = true := by
      cases hd : s.data with
      | nil => exact absurd hd hsne
      | cons a l => simp [truthy, hd]
    have c1 : pyIn "reasonable age"
        "prescription_date should be within last 2 years" = false := by decide
    have c2 : pyIn "within last 2 years"
        "prescription_date should be within last 2 years" = true := by decide
    have hbody : dateLogicBody now prescriptionAgeCfg (buildFieldDict fields) =
        .ok { passed := false,
              message := "Prescription is " ++ toString (now - t) ++
                " days old (over 2 years)",
              warning := true } := by
      simp only [dateLogicBody, prescriptionAgeCfg, c1, c2, Bool.false_eq_true, if_false,
        eq_self_iff_true, if_true, hdict, hstr, pyStrptimeYMD, hparse, gt_iff_lt, hold]
    have happ : apply_validation_rule now prescriptionAgeCfg (buildFieldDict fields) =
        { passed := false,
          message := "Prescription is " ++ toString (now - t) ++
            " days old (over 2 years)",
          warning := true } := by
      have hd1 : (apply_validation_rule now prescriptionAgeCfg (buildFieldDict fields)) =
          validate_date_logic now prescriptionAgeCfg (buildFieldDict fields) := by
        simp +decide [apply_validation_rule, prescriptionAgeCfg]
      rw [hd1]
      unfold validate_date_logic
      rw [hbody]
    have hmemc : ("prescription_age", prescriptionAgeCfg) ∈
        validationRulesFor "prescription" := by
      have hr : validationRulesFor "prescription" = get_prescription_validation_rules := rfl
      rw [hr]
      exact List.mem_cons_of_mem _ (List.mem_cons_of_mem _
        (List.mem_cons_of_mem _ (List.mem_cons_self _ _)))
    have hloop := validationRuleLoop_failed_mem
      (fun _ cfg => Except.ok (apply_validation_rule now cfg (buildFieldDict fields)))
      (validationRulesFor "prescription")
      "prescription_age" prescriptionAgeCfg
      { passed := false,
        message := "Prescription is " ++ toString (now - t) ++
          " days old (over 2 years)",
        warning := true }
      hmemc (congrArg Except.ok happ) rfl
    constructor
    · simp only [validate_extraction]
      exact hloop.1
    · simp only [validate_extraction]
      exact hloop.2 rfl
  · intro doc_type n cfg hmem hne now field_dict
    have key : ∀ c : RuleConfig, pyIn "within last 2 years" c.rule = false →
        (apply_validation_rule now c field_dict).warning = false := by
      intro c hno
      cases hw : (apply_validation_rule now c field_dict).warning
      · rfl
      · rw [warning_only_recency now c field_dict hw] at hno
        exact Bool.noConfusion hno
    have hmem3 : (n, cfg) ∈ get_invoice_validation_rules ∨
        (n, cfg) ∈ get_medical_bill_validation_rules ∨
        (n, cfg) ∈ get_prescription_validation_rules := by
      unfold validationRulesFor at hmem
      split_ifs at hmem
      · exact Or.inl hmem
      · exact Or.inr (Or.inl hmem)
      · exact Or.inr (Or.inr hmem)
      · exact Or.inl hmem
    rcases hmem3 with hm | hm | hm <;>
      simp only [get_invoice_validation_rules, get_medical_bill_validation_rules,
        get_prescription_validation_rules, List.mem_cons, List.not_mem_nil,
        or_false] at hm
    · rcases hm with h | h | h | h | h <;>
        (injection h with hn hcfg; subst hcfg; exact key _ (by decide))
    · rcases hm with h | h | h | h | h <;>
        (injection h with hn hcfg; subst hcfg; exact key _ (by decide))
    · rcases hm with h | h | h | h | h
      · injection h with hn hcfg; subst hcfg; exact key _ (by decide)
      · injection h with hn hcfg; subst hcfg; exact key _ (by decide)
      · injection h with hn hcfg; subst hcfg; exact key _ (by decide)
      · injection h with hn hcfg; exact absurd hn hne
      · injection h with hn hcfg; subst hcfg; exact key _ (by decide)

/-- Witness for C5: on 2026-10-12 (day 20738) a prescription dated 2023-01-01
(day 19358, 1380 days earlier) fails `prescription_age` and the message is
copied into the warnings. -/
theorem C5_prescription_age_soft_failure_witness :
    "prescription_age" ∈ (validate_extraction 20738
      { doc_type := "prescription",
        fields := [{ name := "prescription_date", value := .vstr "2023-01-01",
                     confidence := some (9/10) }] }).failed_rules ∧
    ("Prescription is " ++ toString ((20738 : Int) - 19358) ++
      " days old (over 2 years)") ∈ (validate_extraction 20738
      { doc_type := "prescription",
        fields := [{ name := "prescription_date", value := .vstr "2023-01-01",
                     confidence := some (9/10) }] }).warnings :=
  C5_prescription_age_soft_failure.1 20738
    [{ name := "prescription_date", value := .vstr "2023-01-01",
       confidence := some (9/10) }]
    "2023-01-01" 19358 (by decide) (by decide) (by decide)

end DocuAgent
